import Mathlib

/-!
Shallow embedding of the shader/material/pipeline subsystem of the
simple-gltf-renderer repository (Rust), for checking its natural-language
specification.  Each definition mirrors one Rust item; comments name the
source file and lines it was translated from.
-/

namespace GltfRenderer

/-! ### Model of `std::collections::HashMap<String, α>`

Modelled as an association list with `insert` replacing the value in place
when the key is present and appending otherwise (Rust `HashMap::insert`
replaces the value of an existing key).  Iterating a Rust `HashMap` visits
entries in arbitrary order; in the model the iteration order is the list
order, and claims about iteration results are stated order-insensitively
(membership / set of entries) wherever the source order is arbitrary.
-/

/-- Association-list model of `HashMap<String, α>`. -/
abbrev HM (α : Type) := List (String × α)

/-- `HashMap::insert`: replace in place if the key is present, else append. -/
def hmInsert (m : HM α) (k : String) (v : α) : HM α :=
  match m with
  | [] => [(k, v)]
  | (k0, v0) :: rest =>
    if k0 = k then (k0, v) :: rest else (k0, v0) :: hmInsert rest k v

/-- `HashMap::get` / indexing: first (unique) value stored at `k`. -/
def hmGet (m : HM α) (k : String) : Option α :=
  match m with
  | [] => none
  | (k0, v0) :: rest => if k0 = k then some v0 else hmGet rest k

/-- `HashMap::contains_key`. -/
def hmContains (m : HM α) (k : String) : Bool :=
  match m with
  | [] => false
  | (k0, _) :: rest => k0 = k || hmContains rest k

/-- The key set of the map. -/
def hmKeys (m : HM α) : List String := m.map (·.1)

/-! ### `UniformProperty` (src/shader.rs lines 17-25, 261-283) -/

/-- `enum UniformProperty` (shader.rs:17-25). -/
inductive UniformProperty
  | float
  | vec2
  | vec3
  | vec4
  | mat3
  | mat4
  deriving DecidableEq, Inhabited

/-- `UniformProperty::size` (shader.rs:262-271). -/
def UniformProperty.size : UniformProperty → Nat
  | .float => 4
  | .vec2 => 8
  | .vec3 => 12
  | .vec4 => 16
  | .mat3 => 48
  | .mat4 => 64

/-- `UniformProperty::align` (shader.rs:273-282). -/
def UniformProperty.align : UniformProperty → Nat
  | .float => 4
  | .vec2 => 8
  | .vec3 => 16
  | .vec4 => 16
  | .mat3 => 16
  | .mat4 => 16

/-- `enum TextureProperty` (shader.rs:27-32); the `Texture2D` payload is the
default-texture tag parsed from the description. -/
inductive TextureProperty
  | texture2D (default : String)
  | texture3D
  | textureCube
  deriving DecidableEq, Inhabited

/-! ### `Shader::build_uniform_offsets` (src/shader.rs lines 137-154)

The Rust loop threads a running `total_size`, aligning it up to the entry
alignment, recording the entry offset into `uniform_offsets`, and adding the
entry size; after the loop `total_size` is rounded up to a multiple of 16.
`uniformOffsetsLoop` returns the (name, offset) pairs in declaration order
together with the running total after the last entry; the map
`uniform_offsets` is that list folded through `hmInsert`.
-/

/-- One alignment step of the loop body (shader.rs:141-145):
`let diff = total_size % align; if diff != 0 { total_size += align - diff }`. -/
def alignUp (total a : Nat) : Nat :=
  if total % a ≠ 0 then total + (a - total % a) else total

/-- The `for (name, uniform) in &self.uniform_properties` loop of
`build_uniform_offsets` (shader.rs:140-148), threading `total_size`. -/
def uniformOffsetsLoop :
    Nat → List (String × UniformProperty) → List (String × Nat) × Nat
  | total, [] => ([], total)
  | total, (name, u) :: rest =>
    let offset := alignUp total u.align
    let r := uniformOffsetsLoop (offset + u.size) rest
    ((name, offset) :: r.1, r.2)

/-- `Shader::build_uniform_offsets` (shader.rs:137-154): the ordered offset
list and the final `uniform_size` (running total rounded up to a multiple
of 16, shader.rs:149-152). -/
def build_uniform_offsets (props : List (String × UniformProperty)) :
    List (String × Nat) × Nat :=
  let (offs, total) := uniformOffsetsLoop 0 props
  (offs, alignUp total 16)

/-- The `uniform_offsets` hash map as stored on the shader (shader.rs:146). -/
def uniformOffsetsMap (props : List (String × UniformProperty)) : HM Nat :=
  (build_uniform_offsets props).1.foldl (fun m p => hmInsert m p.1 p.2) []

/-! ### `Shader::new` texture index table (src/shader.rs lines 70-95) -/

/-- The `textures_index` map built in `Shader::new` (shader.rs:77-80):
`for (i, (name, _)) in texture_properties.iter().enumerate()` inserting
`name -> i`. -/
def texturesIndex (props : List (String × TextureProperty)) : HM Nat :=
  (props.enum).foldl (fun m p => hmInsert m p.2.1 p.1) []

/-- The `texture_properties` hash map built in `Shader::new`
(shader.rs:81-84) from the declared list. -/
def texturePropsMap (props : List (String × TextureProperty)) :
    HM TextureProperty :=
  props.foldl (fun m p => hmInsert m p.1 p.2) []

/-! ### Lemmas for the uniform layout (claim C1) -/

theorem alignUp_ge (t a : Nat) : t ≤ alignUp t a := by
  unfold alignUp; split <;> omega

theorem alignUp_zero (a : Nat) : alignUp 0 a = 0 := by
  simp [alignUp]

theorem alignUp_align_mod (t : Nat) (u : UniformProperty) :
    alignUp t u.align % u.align = 0 := by
  cases u <;> simp only [UniformProperty.align, alignUp] <;> split <;> omega

theorem alignUp_16_mod (t : Nat) : alignUp t 16 % 16 = 0 := by
  simp only [alignUp]; split <;> omega

theorem uniformOffsetsLoop_length (l : List (String × UniformProperty)) :
    ∀ t, ((uniformOffsetsLoop t l).1).length = l.length := by
  induction l with
  | nil => intro t; rfl
  | cons p rest ih => intro t; obtain ⟨n, u⟩ := p; simp [uniformOffsetsLoop, ih]

theorem uniformOffsetsLoop_entry (l : List (String × UniformProperty)) :
    ∀ t i, i < l.length →
      (((uniformOffsetsLoop t l).1.getD i ("", 0)).1
          = (l.getD i ("", .float)).1
        ∧ ((uniformOffsetsLoop t l).1.getD i ("", 0)).2
            % (l.getD i ("", .float)).2.align = 0) := by
  induction l with
  | nil => intro t i hi; simp at hi
  | cons p rest ih =>
    intro t i hi
    obtain ⟨n, u⟩ := p
    cases i with
    | zero => exact ⟨rfl, alignUp_align_mod t u⟩
    | succ j =>
      have hj : j < rest.length := by simpa using hi
      simpa [uniformOffsetsLoop] using
        ih (alignUp t u.align + u.size) j hj

theorem uniformOffsetsLoop_head_ge (l : List (String × UniformProperty))
    (t : Nat) (hl : l ≠ []) :
    t ≤ ((uniformOffsetsLoop t l).1.getD 0 ("", 0)).2 := by
  cases l with
  | nil => exact absurd rfl hl
  | cons p rest =>
    obtain ⟨n, u⟩ := p
    simpa [uniformOffsetsLoop] using alignUp_ge t u.align

theorem uniformOffsetsLoop_gap (l : List (String × UniformProperty)) :
    ∀ t i, i + 1 < l.length →
      ((uniformOffsetsLoop t l).1.getD i ("", 0)).2
          + (l.getD i ("", .float)).2.size
        ≤ ((uniformOffsetsLoop t l).1.getD (i + 1) ("", 0)).2 := by
  induction l with
  | nil => intro t i hi; simp at hi
  | cons p rest ih =>
    intro t i hi
    obtain ⟨n, u⟩ := p
    cases i with
    | zero =>
      have hrest : rest ≠ [] := by
        cases rest with
        | nil => simp at hi
        | cons q l2 => simp
      simpa [uniformOffsetsLoop] using
        uniformOffsetsLoop_head_ge rest (alignUp t u.align + u.size) hrest
    | succ j =>
      have hj : j + 1 < rest.length := by simpa using hi
      simpa [uniformOffsetsLoop] using
        ih (alignUp t u.align + u.size) j hj

theorem uniformOffsetsLoop_head_zero (l : List (String × UniformProperty))
    (hl : l ≠ []) :
    ((uniformOffsetsLoop 0 l).1.getD 0 ("", 0)).2 = 0 := by
  cases l with
  | nil => exact absurd rfl hl
  | cons p rest =>
    obtain ⟨n, u⟩ := p
    simp [uniformOffsetsLoop, alignUp_zero]

/-- C1: the uniform layout computed at shader build processes the declared
`(name, UniformProperty)` entries strictly in order; each entry gets a byte
offset aligned to `property.align()` and at least
`previous_offset + previous.size()`; a first entry sits at offset 0; the
total size is the running total rounded up to the next multiple of 16; and
on `[(Vec3,"a"), (Float,"b"), (Vec4,"c")]` the offsets are `a=0, b=12, c=16`
with `total_size = 32`. -/
theorem build_uniform_offsets_correct
    (props : List (String × UniformProperty)) :
    ((build_uniform_offsets props).1).length = props.length
    ∧ (∀ i, i < props.length →
        ((build_uniform_offsets props).1.getD i ("", 0)).1
            = (props.getD i ("", .float)).1
          ∧ ((build_uniform_offsets props).1.getD i ("", 0)).2
              % (props.getD i ("", .float)).2.align = 0)
    ∧ (∀ i, i + 1 < props.length →
        ((build_uniform_offsets props).1.getD i ("", 0)).2
            + (props.getD i ("", .float)).2.size
          ≤ ((build_uniform_offsets props).1.getD (i + 1) ("", 0)).2)
    ∧ (props ≠ [] → ((build_uniform_offsets props).1.getD 0 ("", 0)).2 = 0)
    ∧ (build_uniform_offsets props).2 % 16 = 0
    ∧ (build_uniform_offsets props).2 = alignUp (uniformOffsetsLoop 0 props).2 16
    ∧ build_uniform_offsets [("a", .vec3), ("b", .float), ("c", .vec4)]
        = ([("a", 0), ("b", 12), ("c", 16)], 32) := by
  refine ⟨uniformOffsetsLoop_length props 0,
    fun i hi => uniformOffsetsLoop_entry props 0 i hi,
    fun i hi => uniformOffsetsLoop_gap props 0 i hi,
    fun hne => uniformOffsetsLoop_head_zero props hne,
    alignUp_16_mod _, rfl, by decide⟩

/-- Witness for C1 at the concrete example `[(Vec3,"a"), (Float,"b"),
(Vec4,"c")]`, discharging the bound-index hypotheses at `i = 1`. -/
theorem build_uniform_offsets_correct_witness :
    (((build_uniform_offsets [("a", .vec3), ("b", .float), ("c", .vec4)]).1.getD
        1 ("", 0)).2 % 4 = 0)
    ∧ ((build_uniform_offsets
          [("a", .vec3), ("b", .float), ("c", .vec4)]).1.getD 1 ("", 0)).2 + 4
        ≤ ((build_uniform_offsets
          [("a", .vec3), ("b", .float), ("c", .vec4)]).1.getD 2 ("", 0)).2
    ∧ ((build_uniform_offsets
          [("a", .vec3), ("b", .float), ("c", .vec4)]).1.getD 0 ("", 0)).2 = 0 :=
  ⟨(build_uniform_offsets_correct _).2.1 1 (by decide) |>.2,
    (build_uniform_offsets_correct _).2.2.1 1 (by decide),
    (build_uniform_offsets_correct _).2.2.2.1 (by decide)⟩

/-! ### Textures (src/texture.rs)

The GPU handles (`wgpu::Texture`, views, samplers) are modelled by the
creation parameters that the code passes to the device: level-0 byte
payload, extent, view dimension and mip level count.  Shader modules are
modelled as opaque `Nat` identifiers.
-/

/-- `wgpu::TextureViewDimension` (the cases used by the code). -/
inductive TextureViewDimension
  | d2
  | d3
  | cube
  deriving DecidableEq, Inhabited

/-- `wgpu::Extent3d`. -/
structure Extent3d where
  width : Nat
  height : Nat
  depth : Nat
  deriving DecidableEq, Inhabited

/-- Modelled from the spec: `wgpu::Extent3d::max_mips` is wgpu library code,
not part of this repository; the spec fixes its value as the full mip chain
length "`floor(log2(width)) + 1` levels" of the largest dimension
(`Nat.log2` is the floor logarithm). -/
def Extent3d.max_mips (e : Extent3d) : Nat :=
  Nat.log2 (max e.width (max e.height e.depth)) + 1

/-- Modelled from the spec: the width of mip level `k` of a texture of base
width `w`, "level `k` has width `max(1, W >> k)`" — mip extents are derived
inside wgpu, not in this repository. -/
def mipLevelWidth (w k : Nat) : Nat := max 1 (w >>> k)

/-- `crate::texture::Texture` (texture.rs:3-10), modelled by its creation
parameters. -/
structure Texture where
  bytes : List Nat
  size : Extent3d
  viewDimension : TextureViewDimension
  mipLevelCount : Nat
  deriving DecidableEq, Inhabited

/-- `Texture::from_bytes_2d` (texture.rs:58-98): 2D size `{w, h, 1}`,
mip count `size.max_mips()` when mipmapping, default (D2) view. -/
def Texture.from_bytes_2d (bytes : List Nat) (width height : Nat)
    (mipmap : Bool) : Texture :=
  { bytes := bytes
    size := ⟨width, height, 1⟩
    viewDimension := .d2
    mipLevelCount := if mipmap then Extent3d.max_mips ⟨width, height, 1⟩ else 1 }

/-- `Texture::from_bytes_cube` (texture.rs:100-147): size `{w, w, 6}`,
mip count `layer_size.max_mips()` with `layer_size = {w, w, 1}` when
mipmapping, cube view. -/
def Texture.from_bytes_cube (bytes : List Nat) (width : Nat)
    (mipmap : Bool) : Texture :=
  { bytes := bytes
    size := ⟨width, width, 6⟩
    viewDimension := .cube
    mipLevelCount := if mipmap then Extent3d.max_mips ⟨width, width, 1⟩ else 1 }

/-- `Texture::from_bytes_3d` (texture.rs:149-190). -/
def Texture.from_bytes_3d (bytes : List Nat) (width height depth : Nat)
    (mipmap : Bool) : Texture :=
  { bytes := bytes
    size := ⟨width, height, depth⟩
    viewDimension := .d3
    mipLevelCount := if mipmap then Extent3d.max_mips ⟨width, height, depth⟩ else 1 }

/-- `Texture::render_target_cube` (texture.rs:235-286): no initial bytes,
size `{w, w, 6}`, mip count `layer_size.max_mips()` when mipmapping,
cube view. -/
def Texture.render_target_cube (width : Nat) (mipmap : Bool) : Texture :=
  { bytes := []
    size := ⟨width, width, 6⟩
    viewDimension := .cube
    mipLevelCount := if mipmap then Extent3d.max_mips ⟨width, width, 1⟩ else 1 }

/-- `Texture::white1x1` (texture.rs:288-300). -/
def Texture.white1x1 : Texture :=
  Texture.from_bytes_2d [255, 255, 255, 255] 1 1 false

/-- `Texture::black1x1` (texture.rs:301-313). -/
def Texture.black1x1 : Texture :=
  Texture.from_bytes_2d [0, 0, 0, 255] 1 1 false

/-- `Texture::gray1x1` (texture.rs:314-326). -/
def Texture.gray1x1 : Texture :=
  Texture.from_bytes_2d [128, 128, 128, 255] 1 1 false

/-- `Texture::normal1x1` (texture.rs:327-339). -/
def Texture.normal1x1 : Texture :=
  Texture.from_bytes_2d [128, 128, 255, 255] 1 1 false

/-- `Texture::default_cube` (texture.rs:340-359). -/
def Texture.default_cube : Texture :=
  Texture.from_bytes_cube
    [255, 0, 0, 255, 0, 255, 255, 255, 0, 255, 0, 255,
      255, 0, 255, 255, 0, 0, 255, 255, 255, 255, 0, 255] 1 false

/-- `Texture::black1x1x1` (texture.rs:360-373). -/
def Texture.black1x1x1 : Texture :=
  Texture.from_bytes_3d [0, 0, 0, 255] 1 1 1 false

/-! ### Shader structure (src/shader.rs lines 6-95) -/

/-- `wgpu::CullMode`. -/
inductive CullMode
  | front
  | back
  | none
  deriving DecidableEq, Inhabited

/-- `wgpu::FrontFace`. -/
inductive FrontFace
  | ccw
  | cw
  deriving DecidableEq, Inhabited

/-- `wgpu::BlendFactor` (the variants named in shader.rs:579-595). -/
inductive BlendFactor
  | one
  | zero
  | srcAlpha
  | srcColor
  | oneMinusSrcAlpha
  | oneMinusSrcColor
  | dstAlpha
  | dstColor
  | oneMinusDstAlpha
  | oneMinusDstColor
  deriving DecidableEq, Inhabited

/-- `wgpu::BlendOperation` (shader.rs:597-608). -/
inductive BlendOperation
  | add
  | max
  | min
  | subtract
  | reverseSubtract
  deriving DecidableEq, Inhabited

/-- `wgpu::CompareFunction` (the variants named in shader.rs:610-624). -/
inductive CompareFunction
  | always
  | never
  | equal
  | notEqual
  | less
  | lessEqual
  | greater
  | greaterEqual
  deriving DecidableEq, Inhabited

/-- `wgpu::BlendState`; `BlendState::REPLACE` (= its `Default`) is
`{src_factor: One, dst_factor: Zero, operation: Add}`. -/
structure BlendState where
  src_factor : BlendFactor
  dst_factor : BlendFactor
  operation : BlendOperation
  deriving DecidableEq, Inhabited

/-- `wgpu::BlendState::REPLACE`. -/
def BlendState.replace : BlendState :=
  { src_factor := .one, dst_factor := .zero, operation := .add }

/-- `wgpu::ColorWrite` bit mask (RED=1, GREEN=2, BLUE=4, ALPHA=8, ALL=15). -/
abbrev ColorWrite := Nat

/-- `wgpu::StencilFaceState`, kept opaque: the code never builds one except
through `stencil_face_state_from_json`, which is `todo!()`
(shader.rs:626-631). -/
structure StencilFaceState where
  deriving DecidableEq, Inhabited

/-- `wgpu::StencilState`. -/
structure StencilState where
  front : StencilFaceState
  back : StencilFaceState
  read_mask : Nat
  write_mask : Nat
  deriving DecidableEq, Inhabited

/-- `wgpu::StencilState::default()`: zero masks, default faces. -/
def StencilState.default : StencilState :=
  { front := {}, back := {}, read_mask := 0, write_mask := 0 }

/-- `struct SubShaderOption` (shader.rs:44-53). -/
structure SubShaderOption where
  cull_mode : CullMode
  front_face : FrontFace
  write_mask : ColorWrite
  color_blend : BlendState
  alpha_blend : BlendState
  depth_write : Bool
  depth_compare : CompareFunction
  stencil : StencilState
  deriving DecidableEq, Inhabited

/-- `impl Default for SubShaderOption` (shader.rs:55-68). -/
def SubShaderOption.default : SubShaderOption :=
  { cull_mode := .back
    front_face := .ccw
    write_mask := 15
    color_blend := BlendState.replace
    alpha_blend := BlendState.replace
    depth_write := true
    depth_compare := .less
    stencil := StencilState.default }

/-- `struct SubShader` (shader.rs:34-42); compiled `wgpu::ShaderModule`s are
opaque `Nat` identifiers. -/
structure SubShader where
  tag : String
  options : SubShaderOption
  vs_file : String
  fs_file : String
  shader_definition : HM (Option String)
  vs_module : Option Nat
  fs_module : Option Nat
  deriving DecidableEq, Inhabited

/-- `SubShader::new` (shader.rs:165-181). -/
def SubShader.new (name : String) (options : SubShaderOption)
    (vs_file fs_file : String) (shader_definition : HM (Option String)) :
    SubShader :=
  { tag := name, options, vs_file, fs_file, shader_definition,
    vs_module := Option.none, fs_module := Option.none }

/-- One entry of a `wgpu::BindGroupLayoutDescriptor`, as produced by the
helpers in graphics.rs:125-166. -/
inductive LayoutEntry
  | uniformBuffer (binding : Nat)
  | texture (binding : Nat) (dim : TextureViewDimension)
  | sampler (binding : Nat)
  deriving DecidableEq, Inhabited

/-- The binding number of a layout entry. -/
def LayoutEntry.binding : LayoutEntry → Nat
  | .uniformBuffer b => b
  | .texture b _ => b
  | .sampler b => b

/-- `struct Shader` (shader.rs:6-15); the bind-group layout is modelled by
its entry list. -/
structure Shader where
  name : String
  uniform_properties : List (String × UniformProperty)
  uniform_offsets : HM Nat
  uniform_size : Nat
  texture_properties : HM TextureProperty
  textures_index : HM Nat
  sub_shaders : HM SubShader
  bind_group_layout : Option (List LayoutEntry)
  deriving DecidableEq, Inhabited

/-- `Shader::new` (shader.rs:70-95). -/
def Shader.new (name : String)
    (uniform_properties : List (String × UniformProperty))
    (texture_properties : List (String × TextureProperty))
    (sub_shaders : HM SubShader) : Shader :=
  { name
    uniform_properties
    texture_properties := texturePropsMap texture_properties
    textures_index := texturesIndex texture_properties
    sub_shaders
    uniform_size := 0
    uniform_offsets := []
    bind_group_layout := Option.none }

/-! ### `Shader::build` (src/shader.rs lines 105-161)

Shader-source compilation (`shader_util::compile_to_module`,
shader.rs:529-573, file IO + shaderc) is modelled by an environment
`compile : String → Except String Nat` mapping a source file path to a
module id or a compiler diagnostic.
-/

/-- The `view_dimension` match in `Shader::build` (shader.rs:111-115). -/
def TextureProperty.viewDimension : TextureProperty → TextureViewDimension
  | .texture2D _ => .d2
  | .texture3D => .d3
  | .textureCube => .cube

/-- The bind-group-layout entry list assembled in `Shader::build`
(shader.rs:108-123): a uniform-buffer entry at binding 0, then for each
entry of the `texture_properties` map a texture entry at
`textures_index[name] * 2 + 1` and a sampler entry at
`textures_index[name] * 2 + 2`.  The Rust `HashMap` indexing panics on a
missing key; every iterated name is a key of `textures_index` (both maps
are built from the same declared list in `Shader::new`), so the model uses
`getD 0`. -/
def shaderLayoutEntries (tpm : HM TextureProperty) (idx : HM Nat) :
    List LayoutEntry :=
  LayoutEntry.uniformBuffer 0 ::
    tpm.flatMap (fun p =>
      [LayoutEntry.texture ((hmGet idx p.1).getD 0 * 2 + 1) p.2.viewDimension,
        LayoutEntry.sampler ((hmGet idx p.1).getD 0 * 2 + 2)])

/-- `SubShader::build` (shader.rs:183-195): compile the vertex source and
store the module, then compile the fragment source and store the module;
the `?` operator returns early, leaving mutations made so far in place. -/
def SubShader.build (compile : String → Except String Nat) (s : SubShader) :
    Except String Unit × SubShader :=
  match compile s.vs_file with
  | .error e => (.error e, s)
  | .ok m =>
    let s1 := { s with vs_module := some m }
    match compile s1.fs_file with
    | .error e => (.error e, s1)
    | .ok m2 => (.ok (), { s1 with fs_module := some m2 })

/-- The `for (_, sub) in &mut self.sub_shaders` loop of
`Shader::build_sub_shaders` (shader.rs:156-161): each sub-shader is built
in place; the first error aborts the loop, keeping the already-built
sub-shaders mutated. -/
def buildSubShadersLoop (compile : String → Except String Nat) :
    List (String × SubShader) →
      Except String Unit × List (String × SubShader)
  | [] => (.ok (), [])
  | (tag, s) :: rest =>
    match SubShader.build compile s with
    | (.error e, s1) => (.error e, (tag, s1) :: rest)
    | (.ok _, s1) =>
      let r := buildSubShadersLoop compile rest
      (r.1, (tag, s1) :: r.2)

/-- `Shader::build` (shader.rs:105-135): build all sub-shaders (an error
propagates immediately), then create the bind-group layout, then compute
the uniform offsets and total size. -/
def Shader.build (compile : String → Except String Nat) (sh : Shader) :
    Except String Unit × Shader :=
  let r := buildSubShadersLoop compile sh.sub_shaders
  match r.1 with
  | .error e => (.error e, { sh with sub_shaders := r.2 })
  | .ok _ =>
    let uo := build_uniform_offsets sh.uniform_properties
    (.ok (),
      { sh with
        sub_shaders := r.2
        bind_group_layout :=
          some (shaderLayoutEntries sh.texture_properties sh.textures_index)
        uniform_offsets := uo.1.foldl (fun m p => hmInsert m p.1 p.2) []
        uniform_size := uo.2 })

/-! ### Materials (src/material.rs) -/

/-- `HashMap::get_mut(name).map(|data| *data = value)`: replace the value
stored at `name` when the key is present, otherwise do nothing. -/
def hmUpdate (m : HM α) (k : String) (v : α) : HM α :=
  match m with
  | [] => []
  | (k0, v0) :: rest =>
    if k0 = k then (k0, v) :: rest else (k0, v0) :: hmUpdate rest k v

/-- The default-texture match in `Material::from_shader`
(material.rs:31-40): Texture2D defaults select one of the four 1×1
placeholders by tag (any other tag falls back to black), every other
texture kind gets the white 1×1 texture. -/
def Material.defaultTexture : TextureProperty → Texture
  | .texture2D d =>
    match d with
    | "white" => Texture.white1x1
    | "black" => Texture.black1x1
    | "gray" | "grey" => Texture.gray1x1
    | "normal" => Texture.normal1x1
    | _ => Texture.black1x1
  | _ => Texture.white1x1

/-- `struct Material` (material.rs:8-17); the GPU uniform buffer and bind
group are derived by `Material.buildEntries` below and not stored. -/
structure Material where
  name : String
  shader : String
  uniform_bytes : List Nat
  uniform_offsets : HM Nat
  textures : HM Texture
  textures_index : HM Nat
  deriving DecidableEq, Inhabited

/-- `Material::from_shader` (material.rs:20-54): zeroed uniform bytes of
`shader.uniform_size`, a default texture per declared texture property,
and clones of the shader's offset and index tables. -/
def Material.from_shader (name : String) (shader : Shader) : Material :=
  { name
    shader := shader.name
    uniform_bytes := List.replicate shader.uniform_size 0
    uniform_offsets := shader.uniform_offsets
    textures :=
      shader.texture_properties.foldl
        (fun m p => hmInsert m p.1 (Material.defaultTexture p.2)) []
    textures_index := shader.textures_index }

/-- `Material::set_texture` (material.rs:113-116):
`self.textures.get_mut(name).map(|data| *data = value)`. -/
def Material.set_texture (m : Material) (name : String) (value : Texture) :
    Material :=
  { m with textures := hmUpdate m.textures name value }

/-- One entry of the material's `wgpu::BindGroupDescriptor`
(material.rs:126-140). -/
inductive BindEntry
  | buffer (binding : Nat) (contents : List Nat)
  | textureView (binding : Nat) (tex : Texture)
  | sampler (binding : Nat) (tex : Texture)
  deriving DecidableEq, Inhabited

/-- The binding number of a bind-group entry. -/
def BindEntry.binding : BindEntry → Nat
  | .buffer b _ => b
  | .textureView b _ => b
  | .sampler b _ => b

/-- The bind-group entry list assembled in `Material::build`
(material.rs:118-146): the uniform buffer at binding 0, then for each
stored texture its view at `textures_index[name] * 2 + 1` and its sampler
at `textures_index[name] * 2 + 2` (`getD 0` models the panicking map
indexing, which never misses since both maps share their key set). -/
def Material.buildEntries (m : Material) : List BindEntry :=
  BindEntry.buffer 0 m.uniform_bytes ::
    m.textures.flatMap (fun p =>
      [BindEntry.textureView ((hmGet m.textures_index p.1).getD 0 * 2 + 1) p.2,
        BindEntry.sampler ((hmGet m.textures_index p.1).getD 0 * 2 + 2) p.2])

/-! ### Association-list map lemmas -/

theorem hmInsert_of_not_mem (m : HM α) (k : String) (v : α)
    (h : k ∉ m.map (·.1)) : hmInsert m k v = m ++ [(k, v)] := by
  induction m with
  | nil => rfl
  | cons p rest ih =>
    obtain ⟨k0, v0⟩ := p
    simp only [List.map_cons, List.mem_cons] at h
    push_neg at h
    have hne : ¬ k0 = k := fun hk => h.1 hk.symm
    simp [hmInsert, hne, ih h.2]

theorem foldl_hmInsert {ι : Type} (l : List ι) (key : ι → String)
    (val : ι → α) :
    ∀ acc : HM α, (acc.map (·.1) ++ l.map key).Nodup →
      l.foldl (fun m p => hmInsert m (key p) (val p)) acc
        = acc ++ l.map (fun p => (key p, val p)) := by
  induction l with
  | nil => intro acc _; simp
  | cons p rest ih =>
    intro acc hnd
    have hp : key p ∉ acc.map (·.1) := by
      intro hmem
      rcases List.nodup_append.mp hnd with ⟨_, _, hdisj⟩
      exact hdisj hmem (by simp)
    have step : hmInsert acc (key p) (val p) = acc ++ [(key p, val p)] :=
      hmInsert_of_not_mem acc (key p) (val p) hp
    have hnd2 : ((acc ++ [(key p, val p)]).map (·.1) ++ rest.map key).Nodup := by
      simpa [List.append_assoc] using hnd
    calc (p :: rest).foldl (fun m q => hmInsert m (key q) (val q)) acc
        = rest.foldl (fun m q => hmInsert m (key q) (val q))
            (acc ++ [(key p, val p)]) := by simp [step]
      _ = (acc ++ [(key p, val p)]) ++ rest.map (fun q => (key q, val q)) :=
            ih _ hnd2
      _ = acc ++ (p :: rest).map (fun q => (key q, val q)) := by simp

theorem hmGet_of_mem (m : HM α) (k : String) (v : α)
    (hN : (m.map (·.1)).Nodup) (hm : (k, v) ∈ m) : hmGet m k = some v := by
  induction m with
  | nil => simp at hm
  | cons p rest ih =>
    obtain ⟨k0, v0⟩ := p
    simp only [List.map_cons, List.nodup_cons] at hN
    rcases List.mem_cons.mp hm with heq | hmem
    · cases heq
      simp [hmGet]
    · have hk0 : ¬ k0 = k := by
        intro h; subst h
        exact hN.1 (List.mem_map_of_mem (·.1) hmem)
      simp [hmGet, hk0, ih hN.2 hmem]

theorem hmUpdate_get (m : HM α) (k k' : String) (v : α) :
    hmGet (hmUpdate m k v) k'
      = if k' = k ∧ (hmGet m k).isSome then some v else hmGet m k' := by
  induction m with
  | nil => simp [hmUpdate, hmGet]
  | cons p rest ih =>
    obtain ⟨k0, v0⟩ := p
    by_cases h0 : k0 = k
    · subst h0
      by_cases h1 : k0 = k'
      · subst h1; simp [hmUpdate, hmGet]
      · have h1' : ¬ k' = k0 := fun h => h1 h.symm
        simp [hmUpdate, hmGet, h1, h1']
    · by_cases h1 : k0 = k'
      · subst h1
        have h0' : ¬ k0 = k := h0
        have h2 : ¬ (k0 = k ∧ (hmGet ((k0, v0) :: rest) k).isSome) :=
          fun h => h0 h.1
        simp [hmUpdate, hmGet, h0', h2]
      · have h1' : ¬ k0 = k' := h1
        simp [hmUpdate, hmGet, h0, h1', ih]

/-! ### Texture index density (claim C7) -/

theorem map_swap_fst {β : Type} (l : List (Nat × (String × β))) :
    (l.map (fun p => (p.2.1, p.1))).map (·.2) = l.map Prod.fst := by
  induction l with
  | nil => rfl
  | cons p rest ih => simp [ih]

theorem map_swap_key {β : Type} (l : List (Nat × (String × β))) :
    (l.map (fun p => (p.2.1, p.1))).map (·.1) = (l.map Prod.snd).map (·.1) := by
  induction l with
  | nil => rfl
  | cons p rest ih => simp [ih]

theorem map_snd_key {β : Type} (l : List (Nat × (String × β))) :
    l.map (fun p => p.2.1) = (l.map Prod.snd).map (·.1) := by
  induction l with
  | nil => rfl
  | cons p rest ih => simp [ih]

theorem enum_key_eq (props : List (String × TextureProperty)) :
    props.enum.map (fun p => p.2.1) = props.map (·.1) := by
  rw [map_snd_key, List.enum_map_snd]

theorem texturesIndex_eq (props : List (String × TextureProperty))
    (h : (props.map (·.1)).Nodup) :
    texturesIndex props = props.enum.map (fun p => (p.2.1, p.1)) := by
  have := foldl_hmInsert props.enum (fun p => p.2.1) (fun p => p.1) []
    (by simpa [enum_key_eq] using h)
  simpa [texturesIndex] using this

theorem texturePropsMap_eq (props : List (String × TextureProperty))
    (h : (props.map (·.1)).Nodup) : texturePropsMap props = props := by
  have := foldl_hmInsert props (fun p => p.1) (fun p => p.2) []
    (by simpa using h)
  simpa [texturePropsMap] using this

theorem texturesIndex_values (props : List (String × TextureProperty))
    (h : (props.map (·.1)).Nodup) :
    (texturesIndex props).map (·.2) = List.range props.length := by
  rw [texturesIndex_eq props h, map_swap_fst, List.enum_map_fst]

theorem texturesIndex_keys (props : List (String × TextureProperty))
    (h : (props.map (·.1)).Nodup) :
    (texturesIndex props).map (·.1) = props.map (·.1) := by
  rw [texturesIndex_eq props h, map_swap_key, List.enum_map_snd]

theorem texturesIndex_get (props : List (String × TextureProperty))
    (h : (props.map (·.1)).Nodup) (i : Nat) (hi : i < props.length) :
    hmGet (texturesIndex props) (props.getD i ("", .texture3D)).1 = some i := by
  rw [texturesIndex_eq props h]
  have hlen : i < props.enum.length := by simpa using hi
  have hg : props.getD i ("", .texture3D) = props.get ⟨i, hi⟩ :=
    List.getD_eq_getElem props _ hi
  have henum : (i, props.get ⟨i, hi⟩) ∈ props.enum := by
    have he : props.enum.get ⟨i, hlen⟩ = (i, props.get ⟨i, hi⟩) := by
      simp [List.get_eq_getElem, List.getElem_enum]
    exact he ▸ List.get_mem props.enum i hlen
  have hmem : ((props.getD i ("", .texture3D)).1, i)
      ∈ props.enum.map (fun p => (p.2.1, p.1)) := by
    rw [hg]
    exact List.mem_map_of_mem (fun p => (p.2.1, p.1)) henum
  apply hmGet_of_mem _ _ _ _ hmem
  rw [map_swap_key, List.enum_map_snd]
  exact h

theorem flatMap_enum {β γ : Type} (l : List β) (f : β → List γ) :
    l.flatMap f = l.enum.flatMap (fun p => f p.2) := by
  conv_lhs => rw [← List.enum_map_snd l]
  rw [List.flatMap_map]

theorem texturesIndex_get_enum (props : List (String × TextureProperty))
    (h : (props.map (·.1)).Nodup) :
    ∀ p ∈ props.enum, hmGet (texturesIndex props) p.2.1 = some p.1 := by
  intro p hp
  rw [texturesIndex_eq props h]
  apply hmGet_of_mem
  · rw [map_swap_key, List.enum_map_snd]; exact h
  · exact List.mem_map_of_mem (fun q => (q.2.1, q.1)) hp

theorem shaderLayoutEntries_eq (props : List (String × TextureProperty))
    (h : (props.map (·.1)).Nodup) :
    shaderLayoutEntries (texturePropsMap props) (texturesIndex props)
      = LayoutEntry.uniformBuffer 0 ::
          props.enum.flatMap (fun p =>
            [LayoutEntry.texture (p.1 * 2 + 1) p.2.2.viewDimension,
              LayoutEntry.sampler (p.1 * 2 + 2)]) := by
  rw [shaderLayoutEntries, texturePropsMap_eq props h]
  congr 1
  rw [flatMap_enum]
  apply List.flatMap_congr
  intro p hp
  rw [texturesIndex_get_enum props h p hp]
  rfl

theorem material_textures_eq (props : List (String × TextureProperty))
    (h : (props.map (·.1)).Nodup) :
    (texturePropsMap props).foldl
        (fun m p => hmInsert m p.1 (Material.defaultTexture p.2)) []
      = props.map (fun p => (p.1, Material.defaultTexture p.2)) := by
  rw [texturePropsMap_eq props h]
  simpa using
    foldl_hmInsert props (fun p => p.1)
      (fun p => Material.defaultTexture p.2) [] (by simpa using h)

theorem materialBuildEntries_eq (props : List (String × TextureProperty))
    (h : (props.map (·.1)).Nodup) (sh : Shader) (nm : String)
    (htp : sh.texture_properties = texturePropsMap props)
    (hti : sh.textures_index = texturesIndex props) :
    (Material.from_shader nm sh).buildEntries
      = BindEntry.buffer 0 (List.replicate sh.uniform_size 0) ::
          props.enum.flatMap (fun p =>
            [BindEntry.textureView (p.1 * 2 + 1)
                (Material.defaultTexture p.2.2),
              BindEntry.sampler (p.1 * 2 + 2)
                (Material.defaultTexture p.2.2)]) := by
  rw [Material.buildEntries, Material.from_shader]
  congr 1
  simp only [htp, hti, material_textures_eq props h]
  rw [List.flatMap_map, flatMap_enum]
  apply List.flatMap_congr
  intro p hp
  rw [texturesIndex_get_enum props h p hp]
  rfl

/-- A shader declaring two texture properties with distinct names, used to
instantiate the claim theorems at a concrete input. -/
def demoTexProps : List (String × TextureProperty) :=
  [("t0", TextureProperty.texture2D "white"), ("t1", TextureProperty.textureCube)]

/-- C7 (amended): for a shader whose `N` declared texture properties have
pairwise-distinct names, the assigned texture binding indices are exactly
`{0, ..., N-1}` in declaration order, and both the shader's bind-group
layout and a material bind group built against it hold the uniform buffer
at binding 0 and, for index `i`, the texture view at `i*2 + 1` and its
sampler at `i*2 + 2`. -/
theorem texture_bindings_dense (props : List (String × TextureProperty))
    (hN : (props.map (·.1)).Nodup) (sh : Shader) (nm : String)
    (htp : sh.texture_properties = texturePropsMap props)
    (hti : sh.textures_index = texturesIndex props) :
    (texturesIndex props).map (·.2) = List.range props.length
    ∧ (∀ i, i < props.length →
        hmGet (texturesIndex props) ((props.getD i ("", .texture3D)).1)
          = some i)
    ∧ shaderLayoutEntries sh.texture_properties sh.textures_index
        = LayoutEntry.uniformBuffer 0 ::
            props.enum.flatMap (fun p =>
              [LayoutEntry.texture (p.1 * 2 + 1) p.2.2.viewDimension,
                LayoutEntry.sampler (p.1 * 2 + 2)])
    ∧ (shaderLayoutEntries sh.texture_properties sh.textures_index).map
          LayoutEntry.binding
        = 0 :: (List.range props.length).flatMap
            (fun i => [i * 2 + 1, i * 2 + 2])
    ∧ (Material.from_shader nm sh).buildEntries.map BindEntry.binding
        = 0 :: (List.range props.length).flatMap
            (fun i => [i * 2 + 1, i * 2 + 2]) := by
  have hentries := htp ▸ hti ▸ shaderLayoutEntries_eq props hN
  have hbindings :
      props.enum.flatMap (fun p => [p.1 * 2 + 1, p.1 * 2 + 2])
        = (List.range props.length).flatMap (fun i => [i * 2 + 1, i * 2 + 2]) := by
    rw [← List.enum_map_fst props, List.flatMap_map]
  refine ⟨texturesIndex_values props hN,
    fun i hi => texturesIndex_get props hN i hi,
    hentries, ?_, ?_⟩
  · rw [hentries]
    simp only [List.map_cons, List.map_flatMap]
    rw [← hbindings]
    rfl
  · rw [materialBuildEntries_eq props hN sh nm htp hti]
    simp only [List.map_cons, List.map_flatMap]
    rw [← hbindings]
    rfl

/-- Witness for C7 at a concrete two-texture shader. -/
theorem texture_bindings_dense_witness :
    (texturesIndex demoTexProps).map (·.2) = List.range 2
    ∧ hmGet (texturesIndex demoTexProps) "t1" = some 1
    ∧ (Material.from_shader "m"
          (Shader.new "s" [] demoTexProps [])).buildEntries.map BindEntry.binding
        = 0 :: (List.range 2).flatMap (fun i => [i * 2 + 1, i * 2 + 2]) :=
  have h := texture_bindings_dense demoTexProps (by decide)
    (Shader.new "s" [] demoTexProps []) "m" rfl rfl
  ⟨h.1, h.2.1 1 (by decide), h.2.2.2.2⟩

/-- C7 counterexample: a shader may declare the same texture name twice; the
`Shader::new` index table then assigns only index 1, so for `N = 2` declared
texture properties the set of assigned binding indices is `{1}`, not
`{0, 1}` — the claim fails without a distinct-names assumption. -/
theorem texture_bindings_dense_counterexample :
    ¬ (∀ k, k ∈ ((Shader.new "s" []
            [("a", TextureProperty.texture3D), ("a", TextureProperty.texture3D)]
            []).textures_index).map (·.2)
        ↔ k < [("a", TextureProperty.texture3D),
            ("a", TextureProperty.texture3D)].length) := by
  intro hall
  have h0 := (hall 0).mpr (by decide)
  revert h0
  decide

/-! ### Material texture population and `set_texture` (claims C3, C10) -/

theorem hmUpdate_of_not_mem (m : HM α) (k : String) (v : α)
    (h : k ∉ m.map (·.1)) : hmUpdate m k v = m := by
  induction m with
  | nil => rfl
  | cons p rest ih =>
    obtain ⟨k0, v0⟩ := p
    simp only [List.map_cons, List.mem_cons] at h
    push_neg at h
    have hne : ¬ k0 = k := fun hk => h.1 hk.symm
    simp [hmUpdate, hne, ih h.2]

theorem defaultTexture_fallback (d : String)
    (hd : d ∉ ["white", "black", "gray", "grey", "normal"]) :
    Material.defaultTexture (.texture2D d) = Texture.black1x1 := by
  simp only [List.mem_cons, List.not_mem_nil, or_false] at hd
  push_neg at hd
  obtain ⟨h1, h2, h3, h4, h5⟩ := hd
  simp [Material.defaultTexture, h1, h2, h3, h4, h5]

/-- C10: a material created from a shader pre-populates every declared
texture property with a placeholder: a `Texture2D` property gets the 1×1
texture selected by its default tag (white/black/gray-or-grey/normal, any
other tag falling back to the black 1×1), while `Texture3D` and
`TextureCube` properties get the white 1×1 2D texture; the texture map's
keys are exactly the declared names, so `set_texture` can only replace
textures at declared names and leaves the material unchanged for any other
name. -/
theorem material_default_textures (props : List (String × TextureProperty))
    (hN : (props.map (·.1)).Nodup) (sh : Shader) (nm : String)
    (htp : sh.texture_properties = texturePropsMap props) :
    ((Material.from_shader nm sh).textures.map (·.1) = props.map (·.1))
    ∧ (∀ name t, (name, t) ∈ props →
        hmGet (Material.from_shader nm sh).textures name
          = some (Material.defaultTexture t))
    ∧ Material.defaultTexture (.texture2D "white") = Texture.white1x1
    ∧ Material.defaultTexture (.texture2D "black") = Texture.black1x1
    ∧ Material.defaultTexture (.texture2D "gray") = Texture.gray1x1
    ∧ Material.defaultTexture (.texture2D "grey") = Texture.gray1x1
    ∧ Material.defaultTexture (.texture2D "normal") = Texture.normal1x1
    ∧ (∀ d, d ∉ ["white", "black", "gray", "grey", "normal"] →
        Material.defaultTexture (.texture2D d) = Texture.black1x1)
    ∧ Material.defaultTexture .texture3D = Texture.white1x1
    ∧ Material.defaultTexture .textureCube = Texture.white1x1
    ∧ (∀ name v, name ∉ props.map (·.1) →
        (Material.from_shader nm sh).set_texture name v
          = Material.from_shader nm sh) := by
  have htex : (Material.from_shader nm sh).textures
      = props.map (fun p => (p.1, Material.defaultTexture p.2)) := by
    rw [Material.from_shader]
    simpa [htp] using material_textures_eq props hN
  have hkeys : (Material.from_shader nm sh).textures.map (·.1)
      = props.map (·.1) := by
    rw [htex]
    induction props with
    | nil => rfl
    | cons p rest ih => simp_all
  refine ⟨hkeys, ?_, rfl, rfl, rfl, rfl, rfl, defaultTexture_fallback, rfl, rfl,
    ?_⟩
  · intro name t hmem
    rw [htex]
    apply hmGet_of_mem
    · rw [← htex]; rw [hkeys]; exact hN
    · exact List.mem_map_of_mem (fun p => (p.1, Material.defaultTexture p.2)) hmem
  · intro name v hnotin
    have : hmUpdate (Material.from_shader nm sh).textures name v
        = (Material.from_shader nm sh).textures :=
      hmUpdate_of_not_mem _ _ _ (by rw [hkeys]; exact hnotin)
    simp [Material.set_texture, this]

/-- Witness for C10 at a concrete shader declaring a 2D and a cube texture. -/
theorem material_default_textures_witness :
    hmGet (Material.from_shader "m"
        (Shader.new "s" [] demoTexProps [])).textures "t0"
      = some Texture.white1x1
    ∧ hmGet (Material.from_shader "m"
        (Shader.new "s" [] demoTexProps [])).textures "t1"
      = some Texture.white1x1
    ∧ (Material.from_shader "m"
          (Shader.new "s" [] demoTexProps [])).set_texture "zzz"
          Texture.black1x1
        = Material.from_shader "m" (Shader.new "s" [] demoTexProps []) :=
  have h := material_default_textures demoTexProps (by decide)
    (Shader.new "s" [] demoTexProps []) "m" rfl
  ⟨h.2.1 "t0" (.texture2D "white") (by decide),
    h.2.1 "t1" .textureCube (by decide),
    h.2.2.2.2.2.2.2.2.2.2 "zzz" Texture.black1x1 (by decide)⟩

/-- A material built from a shader declaring `base_color_tex` as a 2D
texture property, used for the `set_texture` claims. -/
def demoMaterial2D : Material :=
  Material.from_shader "m"
    (Shader.new "s" [] [("base_color_tex", TextureProperty.texture2D "white")] [])

/-- C3 counterexample: the shader declares `base_color_tex` as `Texture2D`,
yet `set_texture` with a cube-view texture replaces the stored texture —
`Material::set_texture` (material.rs:113-116) takes no type argument and
performs no type check, so a declared-type mismatch is not dropped. -/
theorem set_texture_counterexample :
    hmGet demoMaterial2D.textures "base_color_tex" = some Texture.white1x1
    ∧ Texture.default_cube.viewDimension ≠ TextureViewDimension.d2
    ∧ hmGet ((demoMaterial2D.set_texture "base_color_tex"
          Texture.default_cube).textures) "base_color_tex"
        = some Texture.default_cube := by
  refine ⟨rfl, by decide, rfl⟩

/-- C3 (amended): `set_texture(name, texture)` replaces the stored texture
exactly when `name` is a key of the material's texture map (the names
declared on the shader); the declared texture type is never consulted — the
replacement happens for every texture value, whatever its dimension — and a
missing name is a silent no-op. -/
theorem set_texture_amended (m : Material) (name : String) (v : Texture) :
    hmGet ((m.set_texture name v).textures) name
      = (if (hmGet m.textures name).isSome then some v else none)
    ∧ (∀ other, ¬ other = name →
        hmGet ((m.set_texture name v).textures) other
          = hmGet m.textures other) := by
  constructor
  · rcases hOpt : hmGet m.textures name with _ | w <;>
      simp [Material.set_texture, hmUpdate_get, hOpt]
  · intro other hne
    simp [Material.set_texture, hmUpdate_get, hne]

/-- Witness for C3's amended claim on the concrete material: replacing at
the declared name stores the new texture, another name is untouched. -/
theorem set_texture_amended_witness :
    hmGet ((demoMaterial2D.set_texture "base_color_tex"
          Texture.black1x1).textures) "base_color_tex"
      = (if (hmGet demoMaterial2D.textures "base_color_tex").isSome
          then some Texture.black1x1 else none)
    ∧ hmGet ((demoMaterial2D.set_texture "base_color_tex"
          Texture.black1x1).textures) "other"
        = hmGet demoMaterial2D.textures "other" :=
  have h := set_texture_amended demoMaterial2D "base_color_tex" Texture.black1x1
  ⟨h.1, h.2 "other" (by decide)⟩

/-! ### Pipeline-layout slot order (claim C2)

`SubShader::render_pipeline` (shader.rs:197-218) builds a pipeline layout
from four bind-group layouts; bind-group layouts are modelled by the key
they are stored under in `GraphicsState::bind_group_layouts`
(graphics.rs:93-97), or by the owning shader's name for the shader-specific
layout.
-/

/-- A bind-group layout, identified by its registry key (`"_Object"`,
`"_Camera"`, `"_Light"`, `"_Scene"`, graphics.rs:93-97) or, for a shader's
own layout, by the shader name. -/
inductive BindGroupLayoutKey
  | shaderSpecific (shader : String)
  | named (key : String)
  deriving DecidableEq, Inhabited

/-- The `bind_group_layouts` slice of the `PipelineLayoutDescriptor` in
`SubShader::render_pipeline` (shader.rs:208-218): the shader-specific
layout followed by the three layout parameters, in parameter order; the
`scene_bind_group_layout` parameter is commented out of the slice
(shader.rs:215) and unused. -/
def renderPipelineBindGroupLayouts (shaderName : String)
    (objectL cameraL lightL _sceneL : BindGroupLayoutKey) :
    List BindGroupLayoutKey :=
  [BindGroupLayoutKey.shaderSpecific shaderName, objectL, cameraL, lightL]

/-- The call site in `Engine::load_shaders` (engine.rs:185-194): the
arguments passed into the `object/camera/light/scene` parameter positions
are, in order, the `"_Object"`, `"_Light"`, `"_Camera"` and `"_Scene"`
registry layouts. -/
def loadShadersPipelineLayout (shaderName : String) :
    List BindGroupLayoutKey :=
  renderPipelineBindGroupLayouts shaderName
    (.named "_Object") (.named "_Light") (.named "_Camera") (.named "_Scene")

/-- The fixed per-frame `set_bind_group` calls of `Engine::render`
(engine.rs:392-413): slot 4 gets the skybox (scene/IBL) group, slot 3 the
camera group, slot 2 the light group, slot 1 the mesh (object) group and
slot 0 the material (shader-specific) group. -/
def renderPassBindGroupSlots (shaderName : String) :
    List (Nat × BindGroupLayoutKey) :=
  [(4, .named "_Scene"), (3, .named "_Camera"), (2, .named "_Light"),
    (1, .named "_Object"), (0, .shaderSpecific shaderName)]

/-- C2 counterexample: the pipeline layout assembled for a shader/sub-shader
pair does not place the camera layout at slot 2 and the light layout at
slot 3 — `Engine::load_shaders` (engine.rs:190-193) passes the `"_Light"`
layout into the `camera` parameter position and the `"_Camera"` layout into
the `light` parameter position, so slot 2 is the light layout. -/
theorem pipeline_layout_slots_counterexample :
    loadShadersPipelineLayout "PbrShader"
      ≠ [BindGroupLayoutKey.shaderSpecific "PbrShader",
          BindGroupLayoutKey.named "_Object", BindGroupLayoutKey.named "_Camera",
          BindGroupLayoutKey.named "_Light"]
    ∧ (loadShadersPipelineLayout "PbrShader").getD 2 (.named "")
        = BindGroupLayoutKey.named "_Light" := by
  refine ⟨?_, rfl⟩
  intro h
  have := congrArg (fun l => l.getD 2 (BindGroupLayoutKey.named "")) h
  simp [loadShadersPipelineLayout, renderPipelineBindGroupLayouts] at this

/-- C2 (amended): for every built shader and sub-shader pass the assembled
pipeline layout has exactly 4 bind-group slots in the order
`[shader-specific, object, light, camera]` (slot 0 = shader-specific,
slot 1 = object, slot 2 = light, slot 3 = camera); the scene/IBL layout is
not part of this layout and is bound separately at draw time on slot 4,
outside the 4-slot layout, consistently with the draw-time camera (slot 3)
and light (slot 2) bindings. -/
theorem pipeline_layout_slots (shaderName : String) :
    loadShadersPipelineLayout shaderName
      = [BindGroupLayoutKey.shaderSpecific shaderName,
          BindGroupLayoutKey.named "_Object", BindGroupLayoutKey.named "_Light",
          BindGroupLayoutKey.named "_Camera"]
    ∧ (loadShadersPipelineLayout shaderName).length = 4
    ∧ BindGroupLayoutKey.named "_Scene" ∉ loadShadersPipelineLayout shaderName
    ∧ (4, BindGroupLayoutKey.named "_Scene") ∈ renderPassBindGroupSlots shaderName
    ∧ (∀ slot layout, (slot, layout) ∈ renderPassBindGroupSlots shaderName →
        slot ≤ 3 →
        (loadShadersPipelineLayout shaderName).getD slot (.named "") = layout) := by
  refine ⟨rfl, rfl, ?_, by simp [renderPassBindGroupSlots], ?_⟩
  · intro h
    simp [loadShadersPipelineLayout, renderPipelineBindGroupLayouts] at h
  · intro slot layout hmem hle
    simp only [renderPassBindGroupSlots, List.mem_cons, List.not_mem_nil,
      or_false] at hmem
    rcases hmem with h | h | h | h | h <;> cases h <;> first
      | omega
      | rfl

/-- Witness for C2's amended claim at a concrete shader name. -/
theorem pipeline_layout_slots_witness :
    (loadShadersPipelineLayout "Skybox").getD 2 (.named "")
      = BindGroupLayoutKey.named "_Light"
    ∧ (loadShadersPipelineLayout "Skybox").getD 3 (.named "")
      = BindGroupLayoutKey.named "_Camera" :=
  have h := pipeline_layout_slots "Skybox"
  ⟨h.2.2.2.2 2 (BindGroupLayoutKey.named "_Light") (by decide) (by decide),
    h.2.2.2.2 3 (BindGroupLayoutKey.named "_Camera") (by decide) (by decide)⟩

/-! ### `Shader::build` failure behaviour (claim C5) -/

/-- The build-invariant part of a sub-shader: everything except the two
compiled modules. -/
def SubShader.skeleton (s : SubShader) :
    String × String × String × SubShaderOption × HM (Option String) :=
  (s.tag, s.vs_file, s.fs_file, s.options, s.shader_definition)

theorem subShaderBuild_cases (compile : String → Except String Nat)
    (s : SubShader) :
    (∃ e, compile s.vs_file = .error e
        ∧ SubShader.build compile s = (.error e, s))
    ∨ (∃ m e, compile s.vs_file = .ok m ∧ compile s.fs_file = .error e
        ∧ SubShader.build compile s = (.error e, { s with vs_module := some m }))
    ∨ (∃ m m2, compile s.vs_file = .ok m ∧ compile s.fs_file = .ok m2
        ∧ SubShader.build compile s
            = (.ok (), { s with vs_module := some m, fs_module := some m2 })) := by
  cases hv : compile s.vs_file with
  | error e => exact Or.inl ⟨e, rfl, by simp [SubShader.build, hv]⟩
  | ok m =>
    cases hf : compile s.fs_file with
    | error e =>
      exact Or.inr (Or.inl ⟨m, e, rfl, rfl, by simp [SubShader.build, hv, hf]⟩)
    | ok m2 =>
      exact Or.inr (Or.inr ⟨m, m2, rfl, rfl, by simp [SubShader.build, hv, hf]⟩)

theorem subShaderBuild_skeleton (compile : String → Except String Nat)
    (s : SubShader) :
    ((SubShader.build compile s).2).skeleton = s.skeleton := by
  rcases subShaderBuild_cases compile s with ⟨e, _, hb⟩ | ⟨m, e, _, _, hb⟩
    | ⟨m, m2, _, _, hb⟩ <;> rw [hb] <;> rfl

theorem buildSubShadersLoop_skeleton (compile : String → Except String Nat)
    (l : List (String × SubShader)) :
    (buildSubShadersLoop compile l).2.map (fun p => (p.1, p.2.skeleton))
      = l.map (fun p => (p.1, p.2.skeleton)) := by
  induction l with
  | nil => rfl
  | cons p rest ih =>
    obtain ⟨tag, s⟩ := p
    have hsk := subShaderBuild_skeleton compile s
    rcases hsb : SubShader.build compile s with ⟨r1, s1⟩
    rw [hsb] at hsk
    cases r1 with
    | error e => simp [buildSubShadersLoop, hsb, hsk]
    | ok u => simp [buildSubShadersLoop, hsb, hsk, ih]

theorem buildSubShadersLoop_error (compile : String → Except String Nat)
    (l : List (String × SubShader)) (e : String)
    (h : (buildSubShadersLoop compile l).1 = .error e) :
    ∃ f, (f ∈ l.map (fun p => p.2.vs_file) ∨ f ∈ l.map (fun p => p.2.fs_file))
      ∧ compile f = .error e := by
  induction l with
  | nil => simp [buildSubShadersLoop] at h
  | cons p rest ih =>
    obtain ⟨tag, s⟩ := p
    rcases subShaderBuild_cases compile s with ⟨e0, hc, hb⟩ | ⟨m, e0, _, hc, hb⟩
      | ⟨m, m2, hc1, hc2, hb⟩
    · rw [buildSubShadersLoop, hb] at h
      simp at h
      exact ⟨s.vs_file, Or.inl (by simp), by rw [hc, h]⟩
    · rw [buildSubShadersLoop, hb] at h
      simp at h
      exact ⟨s.fs_file, Or.inr (by simp), by rw [hc, h]⟩
    · rw [buildSubShadersLoop, hb] at h
      simp at h
      obtain ⟨f, hf, hcf⟩ := ih h
      refine ⟨f, ?_, hcf⟩
      rcases hf with hf | hf
      · exact Or.inl (by simp [hf])
      · exact Or.inr (by simp [hf])

/-- C5 (amended): when `Shader::build` fails, the error is the compiler
diagnostic of one of the shader's vertex or fragment sources, and the
shader's name, property lists, uniform layout (`uniform_offsets`,
`uniform_size`), texture tables and bind-group layout are all left exactly
as before the call, as is everything about each sub-shader except its
compiled modules — but the build is not atomic at the module level:
sub-shaders compiled before the failure point retain their new modules. -/
theorem shader_build_error_state (compile : String → Except String Nat)
    (sh : Shader) (e : String)
    (h : (Shader.build compile sh).1 = .error e) :
    (Shader.build compile sh).2.name = sh.name
    ∧ (Shader.build compile sh).2.uniform_properties = sh.uniform_properties
    ∧ (Shader.build compile sh).2.uniform_offsets = sh.uniform_offsets
    ∧ (Shader.build compile sh).2.uniform_size = sh.uniform_size
    ∧ (Shader.build compile sh).2.texture_properties = sh.texture_properties
    ∧ (Shader.build compile sh).2.textures_index = sh.textures_index
    ∧ (Shader.build compile sh).2.bind_group_layout = sh.bind_group_layout
    ∧ (Shader.build compile sh).2.sub_shaders.map (fun p => (p.1, p.2.skeleton))
        = sh.sub_shaders.map (fun p => (p.1, p.2.skeleton))
    ∧ (∃ f, (f ∈ sh.sub_shaders.map (fun p => p.2.vs_file)
          ∨ f ∈ sh.sub_shaders.map (fun p => p.2.fs_file))
        ∧ compile f = .error e) := by
  cases hr : (buildSubShadersLoop compile sh.sub_shaders).1 with
  | ok u => simp [Shader.build, hr] at h
  | error e0 =>
    have he : e0 = e := by simpa [Shader.build, hr] using h
    subst he
    refine ⟨by simp [Shader.build, hr], by simp [Shader.build, hr],
      by simp [Shader.build, hr], by simp [Shader.build, hr],
      by simp [Shader.build, hr], by simp [Shader.build, hr],
      by simp [Shader.build, hr], ?_,
      buildSubShadersLoop_error compile sh.sub_shaders e0 hr⟩
    have : (Shader.build compile sh).2.sub_shaders
        = (buildSubShadersLoop compile sh.sub_shaders).2 := by
      simp [Shader.build, hr]
    rw [this, buildSubShadersLoop_skeleton]

/-- Compile environment for the C5 counterexample: the vertex source
compiles, the fragment source fails. -/
def demoCompile : String → Except String Nat :=
  fun f => if f = "a.vert" then .ok 7 else .error "frag compile failed"

/-- A shader with one sub-shader, for the C5 counterexample. -/
def demoShaderC5 : Shader :=
  Shader.new "s" [("c", UniformProperty.vec4)] []
    [("ForwardBase",
      SubShader.new "ForwardBase" SubShaderOption.default "a.vert" "a.frag" [])]

/-- C5 counterexample: with a vertex source that compiles and a fragment
source that fails, `Shader::build` returns the fragment diagnostic but the
sub-shader keeps its freshly compiled vertex module — the shader is NOT in
the same unbuilt state as before the call, so the build is not atomic. -/
theorem shader_build_not_atomic_counterexample :
    (Shader.build demoCompile demoShaderC5).1
        = Except.error "frag compile failed"
    ∧ ((Shader.build demoCompile demoShaderC5).2.sub_shaders.map
          (fun p => p.2.vs_module)) = [some 7]
    ∧ (demoShaderC5.sub_shaders.map (fun p => p.2.vs_module)) = [Option.none]
    ∧ (Shader.build demoCompile demoShaderC5).2 ≠ demoShaderC5 := by
  refine ⟨rfl, rfl, rfl, ?_⟩
  intro heq
  have h7 : ([some 7] : List (Option Nat)) = [Option.none] := by
    calc ([some 7] : List (Option Nat))
        = (Shader.build demoCompile demoShaderC5).2.sub_shaders.map
            (fun p => p.2.vs_module) := rfl
      _ = demoShaderC5.sub_shaders.map (fun p => p.2.vs_module) := by rw [heq]
      _ = [Option.none] := rfl
  simp at h7

/-- Witness for C5's amended claim at the concrete failing build. -/
theorem shader_build_error_state_witness :
    (Shader.build demoCompile demoShaderC5).2.bind_group_layout
        = demoShaderC5.bind_group_layout
    ∧ (Shader.build demoCompile demoShaderC5).2.uniform_size
        = demoShaderC5.uniform_size
    ∧ (Shader.build demoCompile demoShaderC5).2.uniform_offsets
        = demoShaderC5.uniform_offsets
    ∧ (∃ f, (f ∈ demoShaderC5.sub_shaders.map (fun p => p.2.vs_file)
          ∨ f ∈ demoShaderC5.sub_shaders.map (fun p => p.2.fs_file))
        ∧ demoCompile f = .error "frag compile failed") :=
  have h := shader_build_error_state demoCompile demoShaderC5
    "frag compile failed" rfl
  ⟨h.2.2.2.2.2.2.1, h.2.2.2.1, h.2.2.1, h.2.2.2.2.2.2.2.2⟩

/-! ### Draw-time pipeline selection in `Engine::render` (claim C6)

`Engine::render` (engine.rs:394-423) walks the light list with an
`is_first` flag, and for each light walks the meshes; a mesh is modelled by
its material name, a material by its shader name (`materials : HM String`),
and the pipeline table by its key list.  The model records the draws
issued.
-/

/-- One `draw_indexed` call issued by `Engine::render`: the light's position
in the light list, the mesh's position in the mesh list, and the pipeline
key used. -/
structure Draw where
  lightIdx : Nat
  meshIdx : Nat
  pipelineKey : String
  deriving DecidableEq, Inhabited

/-- The `for mesh in &self.meshes` loop body (engine.rs:404-422): look up
the mesh's material; when it exists form
`"{material.shader}-{sub_shader_tag}"` and issue a draw only when the
pipeline table holds that key (a lookup miss issues nothing). -/
def drawsForLight (pipelines : List String) (materials : HM String)
    (meshes : List String) (lightIdx : Nat) (tag : String) : List Draw :=
  meshes.enum.flatMap (fun p =>
    match hmGet materials p.2 with
    | none => []
    | some shaderName =>
      if shaderName ++ "-" ++ tag ∈ pipelines then
        [{ lightIdx := lightIdx, meshIdx := p.1,
            pipelineKey := shaderName ++ "-" ++ tag }]
      else [])

/-- The `for light in &self.lights` loop (engine.rs:394-402): the first
iteration uses tag `"ForwardBase"`, every later one `"ForwardAdd"`
(`is_first` is cleared after computing the first tag). -/
def renderLightsLoop (pipelines : List String) (materials : HM String)
    (meshes : List String) : Bool → Nat → Nat → List Draw
  | _, _, 0 => []
  | isFirst, k, n + 1 =>
    drawsForLight pipelines materials meshes k
        (if isFirst then "ForwardBase" else "ForwardAdd")
      ++ renderLightsLoop pipelines materials meshes false (k + 1) n

/-- The draws issued by one frame of `Engine::render` for `numLights`
lights. -/
def renderDraws (pipelines : List String) (materials : HM String)
    (meshes : List String) (numLights : Nat) : List Draw :=
  renderLightsLoop pipelines materials meshes true 0 numLights

theorem enum_mem_getD (ms : List String) (p : Nat × String)
    (hp : p ∈ ms.enum) : p.1 < ms.length ∧ ms.getD p.1 "" = p.2 := by
  rw [List.mem_enum_iff_getElem?] at hp
  have hlen : p.1 < ms.length := by
    by_contra hcon
    push_neg at hcon
    rw [List.getElem?_eq_none_iff.mpr hcon] at hp
    exact Option.noConfusion hp
  refine ⟨hlen, ?_⟩
  rw [List.getD_eq_getElem?_getD, hp]
  rfl

theorem getD_mem_enum (ms : List String) (m : Nat) (hm : m < ms.length) :
    (m, ms.getD m "") ∈ ms.enum := by
  rw [List.mem_enum_iff_getElem?, List.getD_eq_getElem?_getD,
    List.getElem?_eq_getElem hm]
  rfl

theorem drawsForLight_mem (P : List String) (M : HM String)
    (ms : List String) (k : Nat) (tag : String) (d : Draw) :
    d ∈ drawsForLight P M ms k tag ↔
      (d.lightIdx = k ∧ d.meshIdx < ms.length
        ∧ ∃ s, hmGet M (ms.getD d.meshIdx "") = some s
            ∧ d.pipelineKey = s ++ "-" ++ tag ∧ d.pipelineKey ∈ P) := by
  rw [drawsForLight, List.mem_flatMap]
  constructor
  · rintro ⟨p, hp, hdp⟩
    obtain ⟨hplen, hpget⟩ := enum_mem_getD ms p hp
    generalize hM : hmGet M p.2 = o at hdp
    cases o with
    | none =>
      dsimp only at hdp
      exact absurd hdp (List.not_mem_nil d)
    | some s =>
      dsimp only at hdp
      by_cases hP : s ++ "-" ++ tag ∈ P
      · rw [if_pos hP, List.mem_singleton] at hdp
        subst hdp
        refine ⟨rfl, hplen, s, ?_, rfl, hP⟩
        show hmGet M (ms.getD p.1 "") = some s
        rw [hpget, hM]
      · rw [if_neg hP] at hdp
        exact absurd hdp (List.not_mem_nil d)
  · rintro ⟨hli, hm, s, hs, hkey, hp⟩
    rcases d with ⟨li, mi, pk⟩
    dsimp only at hli hm hs hkey hp
    subst hli
    subst hkey
    refine ⟨(mi, ms.getD mi ""), getD_mem_enum ms mi hm, ?_⟩
    dsimp only
    rw [hs]
    dsimp only
    rw [if_pos hp, List.mem_singleton]

theorem renderLightsLoop_mem (P : List String) (M : HM String)
    (ms : List String) :
    ∀ (n k : Nat) (isFirst : Bool) (d : Draw),
      d ∈ renderLightsLoop P M ms isFirst k n ↔
        (k ≤ d.lightIdx ∧ d.lightIdx < k + n
          ∧ d ∈ drawsForLight P M ms d.lightIdx
              (if isFirst = true ∧ d.lightIdx = k then "ForwardBase"
                else "ForwardAdd")) := by
  intro n
  induction n with
  | zero =>
    intro k isFirst d
    simp only [renderLightsLoop, List.not_mem_nil, false_iff]
    rintro ⟨h1, h2, _⟩
    omega
  | succ n ih =>
    intro k isFirst d
    rw [renderLightsLoop, List.mem_append]
    constructor
    · rintro (h | h)
      · have hli : d.lightIdx = k :=
          ((drawsForLight_mem P M ms k _ d).mp h).1
        refine ⟨le_of_eq hli.symm, by omega, ?_⟩
        have htag : (if isFirst = true ∧ d.lightIdx = k then "ForwardBase"
            else "ForwardAdd")
            = (if isFirst = true then "ForwardBase" else "ForwardAdd") := by
          simp [hli]
        rw [htag, hli]
        simpa using h
      · obtain ⟨h1, h2, h3⟩ := (ih (k + 1) false d).mp h
        refine ⟨by omega, by omega, ?_⟩
        have hne : ¬ (isFirst = true ∧ d.lightIdx = k) := by
          rintro ⟨_, hk⟩; omega
        rw [if_neg hne]
        simpa using h3
    · rintro ⟨h1, h2, h3⟩
      by_cases hk : d.lightIdx = k
      · left
        have htag : (if isFirst = true ∧ d.lightIdx = k then "ForwardBase"
            else "ForwardAdd")
            = (if isFirst = true then "ForwardBase" else "ForwardAdd") := by
          simp [hk]
        rw [htag] at h3
        rw [← hk]
        simpa using h3
      · right
        apply (ih (k + 1) false d).mpr
        refine ⟨by omega, by omega, ?_⟩
        have hne2 : ¬ (false = true ∧ d.lightIdx = k + 1) := by simp
        rw [if_neg hne2]
        have hne : ¬ (isFirst = true ∧ d.lightIdx = k) := fun hc => hk hc.2
        rw [if_neg hne] at h3
        exact h3

/-- C6: a draw is issued by `Engine::render` for (light `k`, mesh `m`)
exactly when the mesh's material exists, the pipeline table holds the key
`"{shader}-ForwardBase"` for the first light (`k = 0`) or
`"{shader}-ForwardAdd"` for every subsequent light, and that key is the
pipeline used; in particular an absent key issues no draw for that
(mesh, light) pair, without any error (the selection is total). -/
theorem render_draw_selection (P : List String) (M : HM String)
    (ms : List String) (n : Nat) (d : Draw) :
    d ∈ renderDraws P M ms n ↔
      (d.lightIdx < n ∧ d.meshIdx < ms.length
        ∧ ∃ s, hmGet M (ms.getD d.meshIdx "") = some s
            ∧ d.pipelineKey = s ++ "-"
                ++ (if d.lightIdx = 0 then "ForwardBase" else "ForwardAdd")
            ∧ d.pipelineKey ∈ P) := by
  rw [renderDraws, renderLightsLoop_mem]
  constructor
  · rintro ⟨h1, h2, h3⟩
    obtain ⟨hli, hm, s, hs, hkey, hp⟩ :=
      (drawsForLight_mem P M ms d.lightIdx _ d).mp h3
    refine ⟨by omega, hm, s, hs, ?_, hp⟩
    simpa using hkey
  · rintro ⟨h1, h2, s, hs, hkey, hp⟩
    refine ⟨Nat.zero_le _, by omega, ?_⟩
    apply (drawsForLight_mem P M ms d.lightIdx _ d).mpr
    refine ⟨rfl, h2, s, hs, ?_, hp⟩
    simpa using hkey

/-! ### Mipmap generation (claim C8) and prefilter roughness (claim C9) -/

/-- One blit pass of `Engine::generate_mipmap`: render into
`(layer, dstMip)` sampling `(layer, srcMip)`. -/
structure Blit where
  layer : Nat
  srcMip : Nat
  dstMip : Nat
  deriving DecidableEq, Inhabited

/-- `Engine::generate_mipmap` (engine.rs:447-526): recompute the mip count
from the texture's layer size `{width, height, 1}`, then for each array
layer `i` walk mips `j = 1 .. count-1`, blitting the previous level
(`last_view`, which starts at level 0 and becomes the freshly written level
after each pass) into level `j`; the model records `j = j' + 1` over
`j' ∈ [0, count-1)`. -/
def generate_mipmap (t : Texture) : List Blit :=
  let mipmapLevelCount := Extent3d.max_mips ⟨t.size.width, t.size.height, 1⟩
  (List.range t.size.depth).flatMap (fun i =>
    (List.range (mipmapLevelCount - 1)).map (fun j =>
      { layer := i, srcMip := j, dstMip := j + 1 }))

theorem max_mips_square (w : Nat) (hw : 1 ≤ w) :
    Extent3d.max_mips ⟨w, w, 1⟩ = Nat.log2 w + 1 := by
  rw [Extent3d.max_mips]
  congr 2
  rw [Nat.max_eq_left (Nat.max_le.mpr ⟨le_refl w, hw⟩)]

theorem shiftRight_log2_self (w : Nat) (hw : 1 ≤ w) :
    w >>> Nat.log2 w = 1 := by
  rw [Nat.shiftRight_eq_div_pow]
  have hle : 2 ^ Nat.log2 w ≤ w := Nat.log2_self_le (by omega)
  have hlt : w < 2 ^ (Nat.log2 w + 1) := Nat.lt_log2_self
  have hpos : 0 < 2 ^ Nat.log2 w := Nat.pos_pow_of_pos _ (by omega)
  have h1 : 1 ≤ w / 2 ^ Nat.log2 w := (Nat.one_le_div_iff hpos).mpr hle
  have h2 : w / 2 ^ Nat.log2 w < 2 := by
    apply Nat.div_lt_of_lt_mul
    rw [Nat.pow_succ] at hlt
    omega
  omega

theorem generate_mipmap_mem (t : Texture) (b : Blit) :
    b ∈ generate_mipmap t ↔
      (b.layer < t.size.depth ∧ b.dstMip = b.srcMip + 1
        ∧ b.dstMip < Extent3d.max_mips ⟨t.size.width, t.size.height, 1⟩) := by
  rw [generate_mipmap]
  simp only [List.mem_flatMap, List.mem_map, List.mem_range]
  constructor
  · rintro ⟨i, hi, j, hj, hb⟩
    subst hb
    refine ⟨hi, rfl, ?_⟩
    show j + 1 < _
    omega
  · rintro ⟨h1, h2, h3⟩
    refine ⟨b.layer, h1, b.srcMip, by omega, ?_⟩
    rcases b with ⟨l, s, dm⟩
    dsimp only at h2 ⊢
    rw [h2]

/-- C8: a cubemap built from face images of width `W ≥ 1` with mipmapping
enabled has exactly `floor(log2 W) + 1` mip levels over its 6 faces; level
`k` has width `max(1, W >> k)` (so level 0 has width `W`, widths halve
down level by level, and the last level has width 1); and mip generation
blits, for each of the 6 faces, exactly level `j-1` into level `j` for
every `1 ≤ j < levels`. -/
theorem cubemap_mip_chain (w : Nat) (hw : 1 ≤ w) (bytes : List Nat) :
    (Texture.from_bytes_cube bytes w true).mipLevelCount = Nat.log2 w + 1
    ∧ (Texture.from_bytes_cube bytes w true).size.depth = 6
    ∧ mipLevelWidth w 0 = w
    ∧ (∀ k, mipLevelWidth w k = max 1 (w >>> k))
    ∧ (∀ k, mipLevelWidth w (k + 1) = max 1 (mipLevelWidth w k / 2))
    ∧ mipLevelWidth w (Nat.log2 w) = 1
    ∧ (∀ b, b ∈ generate_mipmap (Texture.from_bytes_cube bytes w true) ↔
        (b.layer < 6 ∧ b.dstMip = b.srcMip + 1
          ∧ b.dstMip < Nat.log2 w + 1)) := by
  have hmm : Extent3d.max_mips ⟨w, w, 1⟩ = Nat.log2 w + 1 := max_mips_square w hw
  refine ⟨by simp [Texture.from_bytes_cube, hmm], rfl, ?_, fun k => rfl, ?_, ?_, ?_⟩
  · simp [mipLevelWidth]
    omega
  · intro k
    rw [mipLevelWidth, mipLevelWidth, Nat.shiftRight_succ]
    rcases Nat.eq_zero_or_pos (w >>> k) with h | h
    · rw [h]
      decide
    · rw [Nat.max_eq_right h]
  · rw [mipLevelWidth, shiftRight_log2_self w hw]
    decide
  · intro b
    rw [generate_mipmap_mem]
    have : Extent3d.max_mips
        ⟨(Texture.from_bytes_cube bytes w true).size.width,
          (Texture.from_bytes_cube bytes w true).size.height, 1⟩
        = Nat.log2 w + 1 := hmm
    rw [this]
    exact Iff.rfl

/-- Witness for C8 at `W = 8` (a 6-face cubemap with a 4-level chain). -/
theorem cubemap_mip_chain_witness :
    (Texture.from_bytes_cube [] 8 true).mipLevelCount = 4
    ∧ mipLevelWidth 8 2 = 2
    ∧ (⟨5, 2, 3⟩ : Blit) ∈ generate_mipmap (Texture.from_bytes_cube [] 8 true)
    ∧ ¬ (⟨5, 2, 4⟩ : Blit) ∈ generate_mipmap (Texture.from_bytes_cube [] 8 true) :=
  have hl : Nat.log2 8 = 3 := by simp [Nat.log2]
  have h := cubemap_mip_chain 8 (by decide) []
  ⟨by rw [h.1, hl], by decide,
    (h.2.2.2.2.2.2 ⟨5, 2, 3⟩).mpr ⟨by decide, rfl, by rw [hl]; decide⟩,
    fun hmem => by
      have hc := (h.2.2.2.2.2.2 ⟨5, 2, 4⟩).mp hmem
      rw [hl] at hc
      exact absurd hc.2.2 (by decide)⟩

/-- `roughness = (j as f32 / 6.0).min(1.0)` written before rendering mip
level `j` in `Engine::create_env_map` (env_map.rs:237-242); the f32
arithmetic is modelled exactly over `ℚ`. -/
def prefilterRoughness (j : Nat) : ℚ := min ((j : ℚ) / 6) 1

/-- The prefilter double loop of `Engine::create_env_map`
(env_map.rs:236-279): for each mip level `j` the roughness is written once
into the per-draw uniform, then each of the 6 faces of level `j` is
rendered with it. -/
def prefilterPasses (levels : Nat) : List (Nat × Nat × ℚ) :=
  (List.range levels).flatMap (fun j =>
    (List.range 6).map (fun i => (j, i, prefilterRoughness j)))

/-- The prefilter stage of `Engine::create_env_map` (env_map.rs:229-282):
the level count is recomputed from the base cubemap's layer size
`{width, width, 1}` (env_map.rs:229-235), which equals the prefiltered
render-target cubemap's own mip count. -/
def create_env_map_prefilter (bytes : List Nat) (width : Nat) :
    List (Nat × Nat × ℚ) :=
  let cubemap := Texture.from_bytes_cube bytes width true
  prefilterPasses
    (Extent3d.max_mips ⟨cubemap.size.width, cubemap.size.height, 1⟩)

theorem prefilterPasses_mem (levels j i : Nat) (r : ℚ) :
    (j, i, r) ∈ prefilterPasses levels ↔
      (j < levels ∧ i < 6 ∧ r = prefilterRoughness j) := by
  rw [prefilterPasses]
  simp only [List.mem_flatMap, List.mem_map, List.mem_range]
  constructor
  · rintro ⟨j0, hj0, i0, hi0, hb⟩
    have h1 : j0 = j := congrArg (fun p => p.1) hb
    have h2 : i0 = i := congrArg (fun p => p.2.1) hb
    have h3 : prefilterRoughness j0 = r := congrArg (fun p => p.2.2) hb
    subst h1
    subst h2
    exact ⟨hj0, hi0, h3.symm⟩
  · rintro ⟨h1, h2, h3⟩
    exact ⟨j, h1, i, h2, by rw [h3]⟩

/-- C9: the roughness written to the per-draw uniform before rendering
level `j` of the prefiltered cubemap equals `min(j/6, 1.0)`; it is
non-decreasing in `j` and equals 1 once `j ≥ 6`; all 6 faces of level `j`
are rendered with that same roughness; and the level count driving the
loop is the prefiltered cubemap's own mip count. -/
theorem prefilter_roughness_spec (bytes : List Nat) (width : Nat) :
    (∀ j i r, (j, i, r) ∈ create_env_map_prefilter bytes width →
        r = min ((j : ℚ) / 6) 1)
    ∧ (∀ j, j < Extent3d.max_mips ⟨width, width, 1⟩ → ∀ i, i < 6 →
        (j, i, prefilterRoughness j) ∈ create_env_map_prefilter bytes width)
    ∧ (∀ j j2, j ≤ j2 → prefilterRoughness j ≤ prefilterRoughness j2)
    ∧ (∀ j, 6 ≤ j → prefilterRoughness j = 1)
    ∧ (∀ j, j < 6 → prefilterRoughness j < 1)
    ∧ create_env_map_prefilter bytes width
        = prefilterPasses ((Texture.render_target_cube width true).mipLevelCount)
    := by
  refine ⟨?_, ?_, ?_, ?_, ?_, rfl⟩
  · intro j i r hr
    exact ((prefilterPasses_mem _ j i r).mp hr).2.2
  · intro j hj i hi
    exact (prefilterPasses_mem _ j i _).mpr ⟨hj, hi, rfl⟩
  · intro j j2 hj
    apply min_le_min _ (le_refl (1 : ℚ))
    apply div_le_div_of_nonneg_right ?_ (by norm_num)
    exact_mod_cast hj
  · intro j hj
    rw [prefilterRoughness, min_eq_right]
    rw [le_div_iff₀ (by norm_num : (0 : ℚ) < 6)]
    exact_mod_cast by omega
  · intro j hj
    rw [prefilterRoughness]
    apply min_lt_iff.mpr
    left
    rw [div_lt_one (by norm_num : (0 : ℚ) < 6)]
    exact_mod_cast hj

/-- Witness for C9 at concrete levels: roughness 1/3 at level 2, saturated
to 1 at level 7, monotone from level 2 to 7, and level 2 face 4 is rendered
with roughness `min(2/6, 1)` for a width-16 cubemap. -/
theorem prefilter_roughness_spec_witness :
    prefilterRoughness 2 ≤ prefilterRoughness 7
    ∧ prefilterRoughness 7 = 1
    ∧ (2, 4, prefilterRoughness 2) ∈ create_env_map_prefilter [] 16 :=
  have h := prefilter_roughness_spec [] 16
  have hlevels : 2 < Extent3d.max_mips ⟨16, 16, 1⟩ := by
    rw [max_mips_square 16 (by omega)]
    have hl : Nat.log2 16 = 4 := by simp [Nat.log2]
    omega
  ⟨h.2.2.1 2 7 (by omega), h.2.2.2.1 7 (by omega),
    h.2.1 2 hlevels 4 (by omega)⟩

/-! ### Shader description parsing (claim C4)

`serde_json::Value` is modelled by `JVal`.  Indexing a `Value` with a
string key or an array index yields `Null` on a miss (`Index` impls of
serde_json), while `Vec` indexing after `as_array().unwrap()` panics when
out of bounds.  `.unwrap()` on `None`, and the `todo!()` body of
`stencil_face_state_from_json`, are modelled by `PRes.panic`.  The
`ShaderParseError` messages are modelled without the single-quote
characters the Rust format strings put around the interpolated value. -/

/-- `serde_json::Value`. -/
inductive JVal
  | null
  | jbool (b : Bool)
  | jnum (n : Int)
  | jstr (s : String)
  | jarr (xs : List JVal)
  | jobj (kvs : List (String × JVal))
  deriving Inhabited

/-- `value["key"]`: `Null` when `self` is not an object or the key is
missing. -/
def JVal.idx (j : JVal) (k : String) : JVal :=
  match j with
  | .jobj kvs => (hmGet kvs k).getD .null
  | _ => .null

/-- `Value::get(key)`: `None` when `self` is not an object or the key is
missing. -/
def JVal.get (j : JVal) (k : String) : Option JVal :=
  match j with
  | .jobj kvs => hmGet kvs k
  | _ => none

/-- `Value::as_str`. -/
def JVal.as_str : JVal → Option String
  | .jstr s => some s
  | _ => none

/-- `Value::as_array`. -/
def JVal.as_array : JVal → Option (List JVal)
  | .jarr xs => some xs
  | _ => none

/-- `Value::as_object`. -/
def JVal.as_object : JVal → Option (List (String × JVal))
  | .jobj kvs => some kvs
  | _ => none

/-- `Value::as_bool`. -/
def JVal.as_bool : JVal → Option Bool
  | .jbool b => some b
  | _ => none

/-- `Value::as_u64`. -/
def JVal.as_u64 : JVal → Option Nat
  | .jnum n => if 0 ≤ n then some n.toNat else none
  | _ => none

/-- The observable outcome of a fallible parsing step: `ok`, a
`ShaderParseError` message, or a panic. -/
inductive PRes (α : Type)
  | ok (a : α)
  | err (msg : String)
  | panic
  deriving DecidableEq

/-- Sequencing: `?` propagates errors, and a panic aborts everything. -/
def PRes.bind : PRes α → (α → PRes β) → PRes β
  | .ok a, f => f a
  | .err e, _ => .err e
  | .panic, _ => .panic

/-- `Option::unwrap()`: a `None` panics. -/
def unwrapO : Option α → PRes α
  | some a => .ok a
  | none => .panic

/-- `TryFrom<String> for UniformProperty` (shader.rs:492-508). -/
def uniformPropertyFromString (value : String) : PRes UniformProperty :=
  match value with
  | "float" => .ok .float
  | "vec2" => .ok .vec2
  | "vec3" => .ok .vec3
  | "vec4" => .ok .vec4
  | "mat3" => .ok .mat3
  | "mat4" => .ok .mat4
  | _ => .err ("Unknown uniform property " ++ value)

/-- `TryFrom<String> for TextureProperty` (shader.rs:510-523). -/
def texturePropertyFromString (value : String) : PRes TextureProperty :=
  match value with
  | "2D" => .ok (.texture2D "")
  | "3D" => .ok .texture3D
  | "Cube" => .ok .textureCube
  | _ => .err ("Unknown texture property " ++ value)

/-- `shader_option_util::blend_factor_from_str` (shader.rs:579-595). -/
def blend_factor_from_str (s : String) : PRes BlendFactor :=
  match s with
  | "one" => .ok .one
  | "zero" => .ok .zero
  | "src_alpha" => .ok .srcAlpha
  | "src_color" => .ok .srcColor
  | "one_minus_src_alpha" => .ok .oneMinusSrcAlpha
  | "one_minus_src_color" => .ok .oneMinusSrcColor
  | "dst_alpha" => .ok .dstAlpha
  | "dst_color" => .ok .dstColor
  | "one_minus_dst_alpha" => .ok .oneMinusDstAlpha
  | "one_minus_dst_color" => .ok .oneMinusDstColor
  | _ => .err ("Unknown blend factor " ++ s)

/-- `shader_option_util::blend_op_from_str` (shader.rs:597-608). -/
def blend_op_from_str (s : String) : PRes BlendOperation :=
  match s with
  | "add" => .ok .add
  | "max" => .ok .max
  | "min" => .ok .min
  | "sub" => .ok .subtract
  | "rsub" => .ok .reverseSubtract
  | _ => .err ("Unknown blend operation " ++ s)

/-- `shader_option_util::compare_func_from_str` (shader.rs:610-624). -/
def compare_func_from_str (s : String) : PRes CompareFunction :=
  match s with
  | "always" => .ok .always
  | "never" => .ok .never
  | "equal" => .ok .equal
  | "nequal" => .ok .notEqual
  | "less" => .ok .less
  | "lequal" => .ok .lessEqual
  | "greater" => .ok .greater
  | "gequal" => .ok .greaterEqual
  | _ => .err ("Unknown compare function " ++ s)

/-- `shader_option_util::stencil_face_state_from_json` (shader.rs:626-631):
the body is `todo!()`, which panics unconditionally. -/
def stencil_face_state_from_json (_value : JVal) : PRes StencilFaceState :=
  .panic

/-- The write-mask character loop of `SubShaderOption::try_from`
(shader.rs:414-432), starting from `ColorWrite::from_bits(0)` (the empty
mask) and inserting RED/GREEN/BLUE/ALPHA bits. -/
def writeMaskLoop : List JVal → Nat → PRes Nat
  | [], mask => .ok mask
  | ch :: rest, mask =>
    (unwrapO ch.as_str).bind fun s =>
      match s with
      | "R" => writeMaskLoop rest (mask ||| 1)
      | "G" => writeMaskLoop rest (mask ||| 2)
      | "B" => writeMaskLoop rest (mask ||| 4)
      | "A" => writeMaskLoop rest (mask ||| 8)
      | _ => .err ("Unknown color write mask value: " ++ s)

/-- The `blend` block of `SubShaderOption::try_from` (shader.rs:433-462):
color and alpha blend states start from `BlendState::default()`
(= REPLACE) and each present key overrides one field. -/
def blendFromJson (blend : JVal) : PRes (BlendState × BlendState) :=
  (match blend.get "op" with
    | none => PRes.ok BlendState.replace
    | some op =>
      (unwrapO op.as_str).bind fun s =>
        (blend_op_from_str s).bind fun o =>
          .ok { BlendState.replace with operation := o }).bind fun c1 =>
  (match blend.get "src" with
    | none => PRes.ok c1
    | some src =>
      (unwrapO src.as_str).bind fun s =>
        (blend_factor_from_str s).bind fun f =>
          .ok { c1 with src_factor := f }).bind fun c2 =>
  (match blend.get "dst" with
    | none => PRes.ok c2
    | some dst =>
      (unwrapO dst.as_str).bind fun s =>
        (blend_factor_from_str s).bind fun f =>
          .ok { c2 with dst_factor := f }).bind fun c3 =>
  (match blend.get "op_alpha" with
    | none => PRes.ok BlendState.replace
    | some op =>
      (unwrapO op.as_str).bind fun s =>
        (blend_op_from_str s).bind fun o =>
          .ok { BlendState.replace with operation := o }).bind fun a1 =>
  (match blend.get "src_alpha" with
    | none => PRes.ok a1
    | some src =>
      (unwrapO src.as_str).bind fun s =>
        (blend_factor_from_str s).bind fun f =>
          .ok { a1 with src_factor := f }).bind fun a2 =>
  (match blend.get "dst_alpha" with
    | none => PRes.ok a2
    | some dst =>
      (unwrapO dst.as_str).bind fun s =>
        (blend_factor_from_str s).bind fun f =>
          .ok { a2 with dst_factor := f }).bind fun a3 =>
  .ok (c3, a3)

/-- The `stencil` block of `SubShaderOption::try_from` (shader.rs:471-487):
masks start from `StencilState::default()`; the `as u32` cast wraps at
`2^32`; a present `front`/`back` key invokes the panicking
`stencil_face_state_from_json`. -/
def stencilFromJson (st : JVal) : PRes StencilState :=
  (match st.get "read_mask" with
    | none => PRes.ok StencilState.default
    | some rm =>
      (unwrapO rm.as_u64).bind fun n =>
        .ok { StencilState.default with read_mask := n % 4294967296 }).bind
    fun s1 =>
  (match st.get "write_mask" with
    | none => PRes.ok s1
    | some wm =>
      (unwrapO wm.as_u64).bind fun n =>
        .ok { s1 with write_mask := n % 4294967296 }).bind fun s2 =>
  (match st.get "front" with
    | none => PRes.ok s2
    | some fs =>
      (stencil_face_state_from_json fs).bind fun f =>
        .ok { s2 with front := f }).bind fun s3 =>
  (match st.get "back" with
    | none => PRes.ok s3
    | some bs =>
      (stencil_face_state_from_json bs).bind fun b =>
        .ok { s3 with back := b })

/-- `TryFrom<&serde_json::Value> for SubShaderOption` (shader.rs:384-490):
start from the defaults and override each field whose key is present;
wrongly-typed values panic via `unwrap`, unknown keywords produce a
`ShaderParseError`. -/
def subShaderOptionTryFrom (value : JVal) : PRes SubShaderOption :=
  (match value.get "cull" with
    | none => PRes.ok SubShaderOption.default
    | some cull =>
      (unwrapO cull.as_str).bind fun s =>
        match s with
        | "front" => .ok { SubShaderOption.default with cull_mode := .front }
        | "back" => .ok { SubShaderOption.default with cull_mode := .back }
        | "none" => .ok { SubShaderOption.default with cull_mode := .none }
        | _ => .err ("Unknown cull value: " ++ s)).bind fun o1 =>
  (match value.get "front_face" with
    | none => PRes.ok o1
    | some front =>
      (unwrapO front.as_str).bind fun s =>
        match s with
        | "ccw" => .ok { o1 with front_face := .ccw }
        | "cw" => .ok { o1 with front_face := .cw }
        | _ => .err ("Unknown front face value: " ++ s)).bind fun o2 =>
  (match value.get "write_mask" with
    | none => PRes.ok o2
    | some wm =>
      (unwrapO wm.as_array).bind fun arr =>
        (writeMaskLoop arr 0).bind fun mask =>
          .ok { o2 with write_mask := mask }).bind fun o3 =>
  (match value.get "blend" with
    | none => PRes.ok o3
    | some blend =>
      (blendFromJson blend).bind fun cb =>
        .ok { o3 with color_blend := cb.1, alpha_blend := cb.2 }).bind fun o4 =>
  (match value.get "depth_write" with
    | none => PRes.ok o4
    | some dw =>
      (unwrapO dw.as_bool).bind fun b =>
        .ok { o4 with depth_write := b }).bind fun o5 =>
  (match value.get "depth_compare" with
    | none => PRes.ok o5
    | some dc =>
      (unwrapO dc.as_str).bind fun s =>
        (compare_func_from_str s).bind fun c =>
          .ok { o5 with depth_compare := c }).bind fun o6 =>
  (match value.get "stencil" with
    | none => PRes.ok o6
    | some st =>
      (stencilFromJson st).bind fun ss =>
        .ok { o6 with stencil := ss })

/-- One `uniform_properties` entry (shader.rs:323-328): `prop` must be an
array (else panic); `prop[1]` is the name, `prop[0]` the type string —
`Vec` indexing panics when the entry is too short. -/
def parseUniformPropEntry (prop : JVal) : PRes (String × UniformProperty) :=
  (unwrapO prop.as_array).bind fun arr =>
  (unwrapO arr[1]?).bind fun p1 =>
  (unwrapO p1.as_str).bind fun name =>
  (unwrapO arr[0]?).bind fun p0 =>
  (unwrapO p0.as_str).bind fun tys =>
  (uniformPropertyFromString tys).bind fun ty =>
  .ok (name, ty)

/-- One `texture_properties` entry (shader.rs:332-345): for a `2D` type the
default tag comes from `prop[2]` and must be one of the five recognized
strings, else a `ShaderParseError` names it. -/
def parseTexturePropEntry (prop : JVal) : PRes (String × TextureProperty) :=
  (unwrapO prop.as_array).bind fun arr =>
  (unwrapO arr[1]?).bind fun p1 =>
  (unwrapO p1.as_str).bind fun name =>
  (unwrapO arr[0]?).bind fun p0 =>
  (unwrapO p0.as_str).bind fun tys =>
  (texturePropertyFromString tys).bind fun ty =>
  match ty with
  | .texture2D _ =>
    (unwrapO arr[2]?).bind fun p2 =>
    (unwrapO p2.as_str).bind fun dflt =>
    if dflt ∈ ["white", "black", "normal", "gray", "grey"]
      then .ok (name, .texture2D dflt)
      else .err ("Unknown texture2D default value " ++ dflt)
  | t => .ok (name, t)

/-- `Result`-propagating map over a parsed JSON array. -/
def parseList (f : JVal → PRes α) : List JVal → PRes (List α)
  | [] => .ok []
  | x :: rest =>
    (f x).bind fun a =>
    (parseList f rest).bind fun tail =>
    .ok (a :: tail)

/-- The optional `definition` map of a sub-shader entry (shader.rs:353-363):
string values map to `Some`, any other value to `None`. -/
def parseDefinition (sub : JVal) : PRes (HM (Option String)) :=
  match sub.get "definition" with
  | none => .ok []
  | some d =>
    (unwrapO d.as_object).bind fun obj =>
    .ok (obj.foldl (fun m p => hmInsert m p.1 p.2.as_str) [])

/-- One `subshaders` entry (shader.rs:349-372): `tag`, `vs`, `fs` are
unwrapped strings; the options come from `SubShaderOption::try_from` on the
same object. -/
def parseSubShaderEntry (sub : JVal) : PRes (String × SubShader) :=
  (unwrapO (sub.idx "tag").as_str).bind fun tag =>
  (unwrapO (sub.idx "vs").as_str).bind fun vs =>
  (unwrapO (sub.idx "fs").as_str).bind fun fs =>
  (parseDefinition sub).bind fun defn =>
  (subShaderOptionTryFrom sub).bind fun option =>
  .ok (tag, SubShader.new tag option vs fs defn)

/-- `TryFrom<&serde_json::Value> for Shader` (shader.rs:298-381) on an
inline (non-string) description; the string branch (shader.rs:302-317)
opens and re-parses a referenced file and is outside this model.  Missing
or wrongly-typed required fields panic through `unwrap`; invalid enum
strings propagate a `ShaderParseError` through `?`. -/
def shaderTryFrom (value : JVal) : PRes Shader :=
  (unwrapO (value.idx "name").as_str).bind fun name =>
  (unwrapO (value.idx "uniform_properties").as_array).bind fun uarr =>
  (parseList parseUniformPropEntry uarr).bind fun uniform_properties =>
  (unwrapO (value.idx "texture_properties").as_array).bind fun tarr =>
  (parseList parseTexturePropEntry tarr).bind fun texture_properties =>
  (unwrapO (value.idx "subshaders").as_array).bind fun sarr =>
  (parseList parseSubShaderEntry sarr).bind fun subs =>
  .ok (Shader.new name uniform_properties texture_properties
    (subs.foldl (fun m p => hmInsert m p.1 p.2) []))

/-- C4 counterexample: parsing the empty object `{}` panics — the missing
`name` field is read through `as_str().unwrap()` (shader.rs:319), not
turned into a `ParseError` — and any sub-shader `stencil.front` spec
panics through `todo!()` (shader.rs:629), so the parser does not return a
descriptive error for every missing/invalid field. -/
theorem shader_parse_counterexample :
    shaderTryFrom (JVal.jobj []) = PRes.panic
    ∧ subShaderOptionTryFrom
        (JVal.jobj [("stencil", JVal.jobj [("front", JVal.jobj [])])])
      = PRes.panic :=
  ⟨rfl, rfl⟩

/-- A well-formed inline description whose only flaw is the unknown uniform
type string `vec5`. -/
def demoShaderJson : JVal :=
  JVal.jobj
    [("name", JVal.jstr "s"),
      ("uniform_properties",
        JVal.jarr [JVal.jarr [JVal.jstr "vec5", JVal.jstr "u"]])]

/-- C4 (amended): unknown enum strings — uniform type, texture type, blend
factor, blend operation, compare function, cull, front-face, write-mask
letter, and Texture2D default tag — make the parse fail with a
`ShaderParseError` whose message names the offending value, and such an
error propagates out of the whole-shader parse; but a missing required
field or a wrongly-typed value panics (`unwrap` on `None`), as does any
`stencil.front`/`stencil.back` spec (`todo!()`), instead of producing a
`ParseError`. -/
theorem parse_unknown_value_errors :
    (∀ s, s ∉ ["float", "vec2", "vec3", "vec4", "mat3", "mat4"] →
      uniformPropertyFromString s = .err ("Unknown uniform property " ++ s))
    ∧ (∀ s, s ∉ ["2D", "3D", "Cube"] →
      texturePropertyFromString s = .err ("Unknown texture property " ++ s))
    ∧ (∀ s, s ∉ ["one", "zero", "src_alpha", "src_color",
          "one_minus_src_alpha", "one_minus_src_color", "dst_alpha",
          "dst_color", "one_minus_dst_alpha", "one_minus_dst_color"] →
      blend_factor_from_str s = .err ("Unknown blend factor " ++ s))
    ∧ (∀ s, s ∉ ["add", "max", "min", "sub", "rsub"] →
      blend_op_from_str s = .err ("Unknown blend operation " ++ s))
    ∧ (∀ s, s ∉ ["always", "never", "equal", "nequal", "less", "lequal",
          "greater", "gequal"] →
      compare_func_from_str s = .err ("Unknown compare function " ++ s))
    ∧ (∀ s, s ∉ ["front", "back", "none"] →
      subShaderOptionTryFrom (JVal.jobj [("cull", JVal.jstr s)])
        = .err ("Unknown cull value: " ++ s))
    ∧ (∀ s, s ∉ ["ccw", "cw"] →
      subShaderOptionTryFrom (JVal.jobj [("front_face", JVal.jstr s)])
        = .err ("Unknown front face value: " ++ s))
    ∧ (∀ s, s ∉ ["R", "G", "B", "A"] →
      subShaderOptionTryFrom
          (JVal.jobj [("write_mask", JVal.jarr [JVal.jstr s])])
        = .err ("Unknown color write mask value: " ++ s))
    ∧ (∀ d, d ∉ ["white", "black", "normal", "gray", "grey"] →
      parseTexturePropEntry
          (JVal.jarr [JVal.jstr "2D", JVal.jstr "t", JVal.jstr d])
        = .err ("Unknown texture2D default value " ++ d))
    ∧ shaderTryFrom demoShaderJson
        = .err ("Unknown uniform property " ++ "vec5") := by
  refine ⟨?_, ?_, ?_, ?_, ?_, ?_, ?_, ?_, ?_, rfl⟩
  · intro s hs
    simp only [List.mem_cons, List.not_mem_nil, or_false] at hs
    push_neg at hs
    obtain ⟨h1, h2, h3, h4, h5, h6⟩ := hs
    simp [uniformPropertyFromString, h1, h2, h3, h4, h5, h6]
  · intro s hs
    simp only [List.mem_cons, List.not_mem_nil, or_false] at hs
    push_neg at hs
    obtain ⟨h1, h2, h3⟩ := hs
    simp [texturePropertyFromString, h1, h2, h3]
  · intro s hs
    simp only [List.mem_cons, List.not_mem_nil, or_false] at hs
    push_neg at hs
    obtain ⟨h1, h2, h3, h4, h5, h6, h7, h8, h9, h10⟩ := hs
    simp [blend_factor_from_str, h1, h2, h3, h4, h5, h6, h7, h8, h9, h10]
  · intro s hs
    simp only [List.mem_cons, List.not_mem_nil, or_false] at hs
    push_neg at hs
    obtain ⟨h1, h2, h3, h4, h5⟩ := hs
    simp [blend_op_from_str, h1, h2, h3, h4, h5]
  · intro s hs
    simp only [List.mem_cons, List.not_mem_nil, or_false] at hs
    push_neg at hs
    obtain ⟨h1, h2, h3, h4, h5, h6, h7, h8⟩ := hs
    simp [compare_func_from_str, h1, h2, h3, h4, h5, h6, h7, h8]
  · intro s hs
    simp only [List.mem_cons, List.not_mem_nil, or_false] at hs
    push_neg at hs
    obtain ⟨h1, h2, h3⟩ := hs
    simp [subShaderOptionTryFrom, JVal.get, hmGet, JVal.as_str, unwrapO,
      PRes.bind, h1, h2, h3]
  · intro s hs
    simp only [List.mem_cons, List.not_mem_nil, or_false] at hs
    push_neg at hs
    obtain ⟨h1, h2⟩ := hs
    simp [subShaderOptionTryFrom, JVal.get, hmGet, JVal.as_str, unwrapO,
      PRes.bind, h1, h2]
  · intro s hs
    simp only [List.mem_cons, List.not_mem_nil, or_false] at hs
    push_neg at hs
    obtain ⟨h1, h2, h3, h4⟩ := hs
    simp [subShaderOptionTryFrom, JVal.get, hmGet, JVal.as_str,
      JVal.as_array, unwrapO, PRes.bind, writeMaskLoop, h1, h2, h3, h4]
  · intro d hd
    simp only [List.mem_cons, List.not_mem_nil, or_false] at hd
    push_neg at hd
    obtain ⟨h1, h2, h3, h4, h5⟩ := hd
    simp [parseTexturePropEntry, texturePropertyFromString, JVal.as_array,
      JVal.as_str, unwrapO, PRes.bind, h1, h2, h3, h4, h5]

/-- Witness for C4's amended claim at concrete unknown strings. -/
theorem parse_unknown_value_errors_witness :
    uniformPropertyFromString "quat"
        = .err ("Unknown uniform property " ++ "quat")
    ∧ subShaderOptionTryFrom (JVal.jobj [("cull", JVal.jstr "both")])
        = .err ("Unknown cull value: " ++ "both")
    ∧ parseTexturePropEntry
          (JVal.jarr [JVal.jstr "2D", JVal.jstr "t", JVal.jstr "pink"])
        = .err ("Unknown texture2D default value " ++ "pink") :=
  have h := parse_unknown_value_errors
  ⟨h.1 "quat" (by decide), h.2.2.2.2.2.1 "both" (by decide),
    h.2.2.2.2.2.2.2.2.1 "pink" (by decide)⟩

end GltfRenderer
